import Mathlib

/-!
Shallow embedding of the brand-alignment workflow orchestrator
(`advisor/app/api/workflows/brand-alignment/route.ts`).

Collaborator responses are JSON documents; we model them with the
inductive type `JVal` (numbers as rationals, which faithfully represent
the decimal numerals JSON can carry).  JavaScript field access,
nullish coalescing (`a ?? b`), truthiness, and `Number.parseFloat`
are modelled explicitly below, translated from the source semantics.
-/

inductive JVal where
  | jnull
  | jbool (b : Bool)
  | jnum (q : ℚ)
  | jstr (s : String)
  | jarr (xs : List JVal)
  | jobj (fields : List (String × JVal))

mutual

def JVal.decEq : (a b : JVal) → Decidable (a = b)
  | .jnull, .jnull => isTrue rfl
  | .jnull, .jbool _ => isFalse nofun
  | .jnull, .jnum _ => isFalse nofun
  | .jnull, .jstr _ => isFalse nofun
  | .jnull, .jarr _ => isFalse nofun
  | .jnull, .jobj _ => isFalse nofun
  | .jbool _, .jnull => isFalse nofun
  | .jbool a, .jbool b =>
    match inferInstanceAs (Decidable (a = b)) with
    | isTrue h => isTrue (by rw [h])
    | isFalse h => isFalse (by intro hh; injection hh; contradiction)
  | .jbool _, .jnum _ => isFalse nofun
  | .jbool _, .jstr _ => isFalse nofun
  | .jbool _, .jarr _ => isFalse nofun
  | .jbool _, .jobj _ => isFalse nofun
  | .jnum _, .jnull => isFalse nofun
  | .jnum _, .jbool _ => isFalse nofun
  | .jnum a, .jnum b =>
    match inferInstanceAs (Decidable (a = b)) with
    | isTrue h => isTrue (by rw [h])
    | isFalse h => isFalse (by intro hh; injection hh; contradiction)
  | .jnum _, .jstr _ => isFalse nofun
  | .jnum _, .jarr _ => isFalse nofun
  | .jnum _, .jobj _ => isFalse nofun
  | .jstr _, .jnull => isFalse nofun
  | .jstr _, .jbool _ => isFalse nofun
  | .jstr _, .jnum _ => isFalse nofun
  | .jstr a, .jstr b =>
    match inferInstanceAs (Decidable (a = b)) with
    | isTrue h => isTrue (by rw [h])
    | isFalse h => isFalse (by intro hh; injection hh; contradiction)
  | .jstr _, .jarr _ => isFalse nofun
  | .jstr _, .jobj _ => isFalse nofun
  | .jarr _, .jnull => isFalse nofun
  | .jarr _, .jbool _ => isFalse nofun
  | .jarr _, .jnum _ => isFalse nofun
  | .jarr _, .jstr _ => isFalse nofun
  | .jarr xs, .jarr ys =>
    match JVal.decEqList xs ys with
    | isTrue h => isTrue (by rw [h])
    | isFalse h => isFalse (by intro hh; injection hh; contradiction)
  | .jarr _, .jobj _ => isFalse nofun
  | .jobj _, .jnull => isFalse nofun
  | .jobj _, .jbool _ => isFalse nofun
  | .jobj _, .jnum _ => isFalse nofun
  | .jobj _, .jstr _ => isFalse nofun
  | .jobj _, .jarr _ => isFalse nofun
  | .jobj xs, .jobj ys =>
    match JVal.decEqFields xs ys with
    | isTrue h => isTrue (by rw [h])
    | isFalse h => isFalse (by intro hh; injection hh; contradiction)

def JVal.decEqList : (xs ys : List JVal) → Decidable (xs = ys)
  | [], [] => isTrue rfl
  | [], _ :: _ => isFalse nofun
  | _ :: _, [] => isFalse nofun
  | x :: xs, y :: ys =>
    match JVal.decEq x y, JVal.decEqList xs ys with
    | isTrue h1, isTrue h2 => isTrue (by rw [h1, h2])
    | isFalse h1, _ => isFalse (by intro hh; injection hh; contradiction)
    | _, isFalse h2 => isFalse (by intro hh; injection hh; contradiction)

def JVal.decEqFields : (xs ys : List (String × JVal)) → Decidable (xs = ys)
  | [], [] => isTrue rfl
  | [], _ :: _ => isFalse nofun
  | _ :: _, [] => isFalse nofun
  | (k₁, v₁) :: xs, (k₂, v₂) :: ys =>
    match inferInstanceAs (Decidable (k₁ = k₂)), JVal.decEq v₁ v₂, JVal.decEqFields xs ys with
    | isTrue h0, isTrue h1, isTrue h2 => isTrue (by rw [h0, h1, h2])
    | isFalse h0, _, _ => isFalse (by intro hh; injection hh with hh1 hh2; injection hh1; contradiction)
    | _, isFalse h1, _ => isFalse (by intro hh; injection hh with hh1 hh2; injection hh1; contradiction)
    | _, _, isFalse h2 => isFalse (by intro hh; injection hh; contradiction)

end

instance : DecidableEq JVal := JVal.decEq

namespace JVal

/-- Field access `v.k` / `v?.k`: `none` models `undefined`
(absent field, or receiver that is not an object). -/
def get? : JVal → String → Option JVal
  | .jobj fs, k => fs.lookup k
  | _, _ => none

/-- JavaScript truthiness of a JSON value. -/
def truthy : JVal → Bool
  | .jnull => false
  | .jbool b => b
  | .jnum q => q != 0
  | .jstr s => s != ""
  | .jarr _ => true
  | .jobj _ => true

end JVal

/-- Collapse `null` into `undefined`: the values skipped by `??` and by
conditional chains such as `payload?.detail ?? ...`. -/
def nv : Option JVal → Option JVal
  | some .jnull => none
  | some v => some v
  | none => none

/-- `p.k` as a nullish-coalescing operand: `none` when the field is
absent, the receiver is not an object, or the value is `null`. -/
def oget (p : JVal) (k : String) : Option JVal :=
  nv (p.get? k)

/-- `p?.k₁?.k₂`-style two-level access used in ternary/`??` positions:
`none` models `undefined` (outer missing or not an object). -/
def jpathRaw (m : JVal) (k₁ k₂ : String) : Option JVal :=
  match m.get? k₁ with
  | some v => v.get? k₂
  | none => none

/-- `p.k₁ ?? p.k₂ ?? ... ?? d`: probe each spelling in order with
nullish coalescing, falling back to the declared default. -/
def jfield (p : JVal) : List String → JVal → JVal
  | [], d => d
  | k :: ks, d =>
    match oget p k with
    | some v => v
    | none => jfield p ks d

/-- Emit `[(k, v)]` when the optional string is present, else nothing:
models `JSON.stringify` dropping properties whose value is `undefined`. -/
def optField (k : String) : Option String → List (String × JVal)
  | some s => [(k, .jstr s)]
  | none => []

/-- Rational multiplication, written with `mkRat` so that it reduces
inside the kernel (the library operations are sealed). -/
def qMul (a b : ℚ) : ℚ := mkRat (a.num * b.num) (a.den * b.den)

/-- Rational addition via `mkRat`. -/
def qAdd (a b : ℚ) : ℚ := mkRat (a.num * b.den + b.num * a.den) (a.den * b.den)

/-- Rational division via `mkRat`; division by zero yields `0`. -/
def qDiv (a b : ℚ) : ℚ :=
  mkRat (if b.num < 0 then -(a.num * b.den) else a.num * b.den) (a.den * b.num.natAbs)

def qOfNat (n : Nat) : ℚ := Rat.ofInt (Int.ofNat n)

def pow10 : Nat → ℚ
  | 0 => 1
  | n + 1 => qMul 10 (pow10 n)

def zpow10 : Int → ℚ
  | .ofNat n => pow10 n
  | .negSucc n => qDiv 1 (pow10 (n + 1))

/-! ### A model of `Number.parseFloat` on strings

`parseFloat` skips leading whitespace, accepts an optional sign, then
the longest prefix of the form `digits [. digits] [e|E [sign] digits]`,
returning `NaN` (modelled `none`) when no digits are found.  Inputs such
as `"Infinity"` are modelled as `none`; the single consumer
`normalizeNumber` treats non-finite results and `NaN` identically
(both fall back), so the model and the source agree at that boundary. -/

/-- Read a maximal run of decimal digits: value, digit count, rest. -/
def readDigits : List Char → Nat → Nat → Nat × Nat × List Char
  | [], acc, n => (acc, n, [])
  | c :: cs, acc, n =>
    if c.isDigit then readDigits cs (acc * 10 + (c.toNat - 48)) (n + 1)
    else (acc, n, c :: cs)

/-- Parse `digits [. digits]`; fails when no digit is present. -/
def parseMantissa (cs : List Char) : Option (ℚ × List Char) :=
  let r := readDigits cs 0 0
  match r.2.2 with
  | '.' :: rest2 =>
    let rf := readDigits rest2 0 0
    if r.2.1 + rf.2.1 = 0 then none
    else some (qAdd (qOfNat r.1) (qDiv (qOfNat rf.1) (pow10 rf.2.1)), rf.2.2)
  | _ => if r.2.1 = 0 then none else some (qOfNat r.1, r.2.2)

/-- Parse an optional exponent suffix; an incomplete exponent (no
digits after `e`) contributes nothing, as in `parseFloat "1e"`. -/
def parseExp (cs : List Char) : Int :=
  match cs with
  | 'e' :: rest => parseExpBody rest
  | 'E' :: rest => parseExpBody rest
  | _ => 0
where
  parseExpBody : List Char → Int
    | '+' :: r => let e := readDigits r 0 0; if e.2.1 = 0 then 0 else (e.1 : Int)
    | '-' :: r => let e := readDigits r 0 0; if e.2.1 = 0 then 0 else -(e.1 : Int)
    | r => let e := readDigits r 0 0; if e.2.1 = 0 then 0 else (e.1 : Int)

def jsParseFloat (s : String) : Option ℚ :=
  let cs := s.data.dropWhile fun c => c = ' ' ∨ c = '\t' ∨ c = '\n' ∨ c = '\r'
  let signed : ℚ × List Char :=
    match cs with
    | '-' :: r => (-1, r)
    | '+' :: r => (1, r)
    | r => (1, r)
  match parseMantissa signed.2 with
  | none => none
  | some (m, rest) => some (qMul (qMul signed.1 m) (zpow10 (parseExp rest)))

/-! ### Schema normalization (frame extraction, logo detection, color harmony)

Each normalizer is translated from the success branch of the matching
step `execute` in the route.  A result of `none` models a thrown
`TypeError` (a property access on `null`), which fails the step. -/

/-- `normalizeNumber` from `frameExtractionStep`. -/
def normalizeNumber (value : Option JVal) (fallback : ℚ) : ℚ :=
  match value with
  | some (.jnum q) => q
  | some (.jstr s) =>
    match jsParseFloat s with
    | some parsed => parsed
    | none => fallback
  | _ => fallback

/-- Image chain `frame?.image_base64 / imageBase64 / image`, each
accepted only when it is a string. -/
def frameImage (f : JVal) : String :=
  match f.get? "image_base64" with
  | some (.jstr s) => s
  | _ =>
    match f.get? "imageBase64" with
    | some (.jstr s) => s
    | _ =>
      match f.get? "image" with
      | some (.jstr s) => s
      | _ => ""

/-- Per-frame normalization inside `frameExtractionStep`. -/
def normalizeFrame (rate : ℚ) (i : Nat) (f : JVal) : JVal :=
  .jobj [("frame_number", .jnum (normalizeNumber (oget f "frame_number" <|> oget f "frameNumber") i)),
         ("timestamp", .jnum (normalizeNumber (oget f "timestamp" <|> oget f "time") (qDiv (qOfNat i) rate))),
         ("image_base64", .jstr (frameImage f))]

/-- `Array.prototype.map` with the element index, as used on `payload.frames`. -/
def mapWithIndex (g : Nat → JVal → JVal) : Nat → List JVal → List JVal
  | _, [] => []
  | i, x :: xs => g i x :: mapWithIndex g (i + 1) xs

/-- `Array.isArray(payload.frames) ? payload.frames.map(...).filter(Boolean image) : []`. -/
def normalizeFrames (rate : ℚ) (p : JVal) : List JVal :=
  match p.get? "frames" with
  | some (.jarr fs) =>
    (mapWithIndex (normalizeFrame rate) 0 fs).filter
      fun f => (f.get? "image_base64").getD .jnull |>.truthy
  | _ => []

/-- Success-branch normalization of `frameExtractionStep`. -/
def normalizeFrameExtraction (p : JVal) : Option JVal :=
  if p = .jnull then none
  else
    let rate := normalizeNumber (oget p "extraction_rate" <|> oget p "extractionRate") 2
    some (.jobj
      [("frames", .jarr (normalizeFrames rate p)),
       ("total_frames_extracted", jfield p ["total_frames_extracted", "totalFramesExtracted"] (.jnum 0)),
       ("video_duration", jfield p ["video_duration", "videoDuration"] (.jnum 0)),
       ("video_fps", jfield p ["video_fps", "videoFps"] (.jnum 0)),
       ("extraction_rate", .jnum rate),
       ("warnings", jfield p ["warnings"] (.jarr []))])

/-- `Array.prototype.map` with a callback that may throw (`none`):
the whole mapping throws when any element does. -/
def mapMO (f : JVal → Option JVal) : List JVal → Option (List JVal)
  | [] => some []
  | x :: xs =>
    match f x, mapMO f xs with
    | some y, some ys => some (y :: ys)
    | _, _ => none

/-- `normalizeDetection` from `logoDetectionStep`; `none` models the
`TypeError` raised by property access on a `null` element. -/
def normalizeDetection (d : JVal) : Option JVal :=
  if d = .jnull then none
  else
    some (.jobj
      [("frame_number", jfield d ["frame_number", "frameNumber"] (.jnum 0)),
       ("timestamp", jfield d ["timestamp"] (.jnum 0)),
       ("method", jfield d ["method"] (.jstr "")),
       ("confidence", jfield d ["confidence"] (.jnum 0)),
       ("bounding_box", jfield d ["bounding_box", "boundingBox"] .jnull),
       ("crop_image_base64", jfield d ["crop_image_base64", "cropImageBase64"] .jnull),
       ("notes", jfield d ["notes"] .jnull)])

/-- Success-branch normalization of `logoDetectionStep`. -/
def normalizeLogoDetection (p : JVal) : Option JVal :=
  if p = .jnull then none
  else
    let dets : Option (List JVal) :=
      match p.get? "detections" with
      | some (.jarr ds) => mapMO normalizeDetection ds
      | _ => some []
    let primaryRaw := jfield p ["primary_detection", "primaryDetection"] .jnull
    let prim : Option JVal :=
      if primaryRaw.truthy then normalizeDetection primaryRaw else some .jnull
    match dets, prim with
    | some ds, some pr =>
      some (.jobj
        [("logo_found", jfield p ["logo_found", "logoFound"] (.jbool false)),
         ("detections", .jarr ds),
         ("primary_detection", pr),
         ("method_used", jfield p ["method_used", "methodUsed"] .jnull),
         ("warnings", jfield p ["warnings"] (.jarr [])),
         ("notes", jfield p ["notes"] .jnull)])
    | _, _ => none

/-- Default palette object used by `colorHarmonyStep`. -/
def defaultPalette : JVal :=
  .jobj [("dominant_colors", .jarr []), ("secondary_colors", .jarr []), ("color_count", .jnum 0)]

/-- Success-branch normalization of `colorHarmonyStep`. -/
def normalizeColorHarmony (p : JVal) : Option JVal :=
  if p = .jnull then none
  else
    some (.jobj
      [("overall_score", jfield p ["overall_score", "overallScore"] (.jnum 0)),
       ("logo_colors", jfield p ["logo_colors", "logoColors"] .jnull),
       ("frame_colors", jfield p ["frame_colors", "frameColors"] defaultPalette),
       ("brand_logo_colors", jfield p ["brand_logo_colors", "brandLogoColors"] defaultPalette),
       ("color_alignment_score", jfield p ["color_alignment_score", "colorAlignmentScore"] (.jnum 0)),
       ("analysis", jfield p ["analysis"] (.jstr "")),
       ("recommendations", jfield p ["recommendations"] (.jarr [])),
       ("warnings", jfield p ["warnings"] (.jarr []))])

/-- Success-branch shaping shared by the Gemini critique steps:
`report: payload.report ?? payload; prompt: payload.prompt ?? ""; warnings ?? []`. -/
def normalizeCritique (p : JVal) : Option JVal :=
  if p = .jnull then none
  else
    some (.jobj
      [("report", jfield p ["report"] p),
       ("prompt", jfield p ["prompt"] (.jstr "")),
       ("warnings", jfield p ["warnings"] (.jarr []))])

/-- Success-branch shaping of `advisorStep` (adds `validationPrompt`). -/
def normalizeAdvisor (p : JVal) : Option JVal :=
  if p = .jnull then none
  else
    some (.jobj
      [("report", jfield p ["report"] p),
       ("prompt", jfield p ["prompt"] (.jstr "")),
       ("validationPrompt", jfield p ["validationPrompt"] (.jstr "")),
       ("warnings", jfield p ["warnings"] (.jarr []))])

/-! ### Workflow input, collaborator boundary, and per-step executors -/

/-- Validated `brandContext` (zod `brandContextSchema`). -/
structure BrandContext where
  companyName : String
  productName : String
  briefPrompt : Option String
  deriving DecidableEq

/-- Validated workflow input (zod `workflowInputSchema`). -/
structure WorkflowInput where
  videoBase64 : String
  brandLogoBase64 : String
  productImageBase64 : Option String
  brandContext : BrandContext
  originalPrompt : Option String
  deriving DecidableEq

/-- JSON-encoded brand context as serialized into request bodies;
an absent `briefPrompt` is dropped by `JSON.stringify`. -/
def brandContextJson (c : BrandContext) : JVal :=
  .jobj ([("companyName", .jstr c.companyName), ("productName", .jstr c.productName)] ++
    optField "briefPrompt" c.briefPrompt)

/-- One collaborator HTTP exchange: `ok` is `response.ok`, `body` is the
JSON parse of the response body (`none` when parsing throws), and
`statusText` is `response.statusText`. -/
structure CollabResponse where
  ok : Bool
  body : Option JVal
  statusText : Option String

/-- Error-branch message selection, shared verbatim by every step:
`errorPayload?.detail ?? errorPayload?.error ?? response.statusText ?? message`,
where `message` starts as the generic per-step text and is left
untouched when the error body cannot be parsed as JSON. -/
def errMsg (generic : String) (r : CollabResponse) : JVal :=
  match r.body with
  | none => .jstr generic
  | some b =>
    match nv (b.get? "detail") with
    | some v => v
    | none =>
      match nv (b.get? "error") with
      | some v => v
      | none =>
        match r.statusText with
        | some st => .jstr st
        | none => .jstr generic

/-- A step failure: the step that threw and the thrown message. -/
structure ExecErr where
  stepId : String
  message : JVal
  deriving DecidableEq

instance {ε α : Type} [DecidableEq ε] [DecidableEq α] : DecidableEq (Except ε α) := fun a b =>
  match a, b with
  | .ok x, .ok y =>
    match inferInstanceAs (Decidable (x = y)) with
    | isTrue h => isTrue (by rw [h])
    | isFalse h => isFalse (by intro hh; injection hh; contradiction)
  | .error x, .error y =>
    match inferInstanceAs (Decidable (x = y)) with
    | isTrue h => isTrue (by rw [h])
    | isFalse h => isFalse (by intro hh; injection hh; contradiction)
  | .ok _, .error _ => isFalse nofun
  | .error _, .ok _ => isFalse nofun

/-- Shared shape of every step executor around its `fetch`:
non-`ok` responses raise the `errMsg` selection; an unparseable success
body or a normalizer `TypeError` also fail the step. -/
def runCollab (id generic : String) (norm : JVal → Option JVal) (r : CollabResponse) :
    Except ExecErr JVal :=
  if r.ok then
    match r.body with
    | some b =>
      match norm b with
      | some out => .ok out
      | none => .error ⟨id, .jstr "TypeError"⟩
    | none => .error ⟨id, .jstr "Unexpected end of JSON input"⟩
  else .error ⟨id, errMsg generic r⟩

/-- The external collaborators, one endpoint per step, each mapping the
serialized request body to its HTTP response. -/
structure Oracle where
  overallCritic : JVal → CollabResponse
  visualStyle : JVal → CollabResponse
  frameExtraction : JVal → CollabResponse
  audioAnalysis : JVal → CollabResponse
  safetyEthics : JVal → CollabResponse
  messageClarity : JVal → CollabResponse
  logoDetection : JVal → CollabResponse
  colorHarmony : JVal → CollabResponse
  synthesizer : JVal → CollabResponse
  advisor : JVal → CollabResponse

/-- Request body of the four video-critique agents
(overall-critic, audio-analysis, safety-ethics, message-clarity). -/
def critiqueRequest (inp : WorkflowInput) : JVal :=
  .jobj [("videoBase64", .jstr inp.videoBase64), ("brandContext", brandContextJson inp.brandContext)]

/-- Request body of `visualStyleStep`; `productImageBase64` is spread in
only when truthy. -/
def visualStyleRequest (inp : WorkflowInput) : JVal :=
  .jobj ([("videoBase64", .jstr inp.videoBase64), ("brandLogoBase64", .jstr inp.brandLogoBase64)] ++
    (match inp.productImageBase64 with
     | some s => if s = "" then [] else [("productImageBase64", .jstr s)]
     | none => []) ++
    [("brandContext", brandContextJson inp.brandContext)])

/-- Request body of `frameExtractionStep`: the sampling rate is the
build-time constant `2.0`, not read from the input. -/
def frameExtractionRequest (inp : WorkflowInput) : JVal :=
  .jobj [("videoBase64", .jstr inp.videoBase64), ("framesPerSecond", .jnum 2)]

def overallCriticExecute (o : Oracle) (inp : WorkflowInput) : Except ExecErr JVal :=
  runCollab "overall-critic" "Failed to execute overall critic agent" normalizeCritique
    (o.overallCritic (critiqueRequest inp))

def visualStyleExecute (o : Oracle) (inp : WorkflowInput) : Except ExecErr JVal :=
  runCollab "visual-style" "Failed to execute visual style agent" normalizeCritique
    (o.visualStyle (visualStyleRequest inp))

def frameExtractionExecute (o : Oracle) (inp : WorkflowInput) : Except ExecErr JVal :=
  runCollab "frame-extraction" "Failed to execute frame extraction agent" normalizeFrameExtraction
    (o.frameExtraction (frameExtractionRequest inp))

def audioAnalysisExecute (o : Oracle) (inp : WorkflowInput) : Except ExecErr JVal :=
  runCollab "audio-analysis" "Failed to execute audio analysis agent" normalizeCritique
    (o.audioAnalysis (critiqueRequest inp))

def safetyEthicsExecute (o : Oracle) (inp : WorkflowInput) : Except ExecErr JVal :=
  runCollab "safety-ethics" "Failed to execute safety and ethics agent" normalizeCritique
    (o.safetyEthics (critiqueRequest inp))

def messageClarityExecute (o : Oracle) (inp : WorkflowInput) : Except ExecErr JVal :=
  runCollab "message-clarity" "Failed to execute message clarity agent" normalizeCritique
    (o.messageClarity (critiqueRequest inp))

/-- Camel-case frame payload sent downstream by both `logoDetectionStep`
and `colorHarmonyStep`; plain property access on a `null` frame throws. -/
def frameOut (f : JVal) : Option JVal :=
  if f = .jnull then none
  else
    some (.jobj
      ((match f.get? "frame_number" with | some v => [("frameNumber", v)] | none => []) ++
       (match f.get? "timestamp" with | some v => [("timestamp", v)] | none => []) ++
       (match f.get? "image_base64" with | some v => [("imageBase64", v)] | none => [])))

/-- Camel-case detection payload sent by `colorHarmonyStep`. -/
def detOut (d : JVal) : Option JVal :=
  if d = .jnull then none
  else
    some (.jobj
      [("frameNumber", jfield d ["frame_number", "frameNumber"] (.jnum 0)),
       ("timestamp", jfield d ["timestamp"] (.jnum 0)),
       ("method", jfield d ["method"] (.jstr "")),
       ("confidence", jfield d ["confidence"] (.jnum 0)),
       ("boundingBox", jfield d ["bounding_box", "boundingBox"] .jnull),
       ("cropImageBase64", jfield d ["crop_image_base64", "cropImageBase64"] .jnull),
       ("notes", jfield d ["notes"] .jnull)])

/-- `true` exactly on an empty JSON array: the `length === 0` test. -/
def emptyArr : JVal → Bool
  | .jarr [] => true
  | _ => false

/-- `logoDetectionStep.execute` on the merged phase input `m`:
guard clauses first (frames present and non-empty, logo present,
brand-context names non-empty), then the collaborator call. -/
def logoDetectionExecute (o : Oracle) (m : JVal) : Except ExecErr JVal :=
  let framesV := (jpathRaw m "frame-extraction" "frames").getD .jnull
  if framesV.truthy = false ∨ emptyArr framesV then
    .error ⟨"logo-detection", .jstr "No frames available from frame extraction step"⟩
  else if (((m.get? "brandLogoBase64").getD .jnull).truthy) = false then
    .error ⟨"logo-detection", .jstr "Brand logo is missing"⟩
  else if (((jpathRaw m "brandContext" "companyName").getD .jnull).truthy) = false ∨
      (((jpathRaw m "brandContext" "productName").getD .jnull).truthy) = false then
    .error ⟨"logo-detection", .jstr "Brand context is incomplete (missing companyName or productName)"⟩
  else
    match framesV with
    | .jarr fs =>
      match mapMO frameOut fs with
      | some frames =>
        let req := .jobj
          ([("frames", .jarr frames)] ++
           (match m.get? "brandLogoBase64" with | some v => [("brandLogoBase64", v)] | none => []) ++
           (match m.get? "brandContext" with | some v => [("brandContext", v)] | none => []) ++
           [("preferClip", .jbool true), ("useGeminiFallback", .jbool true)])
        runCollab "logo-detection" "Failed to execute logo detection agent" normalizeLogoDetection
          (o.logoDetection req)
      | none => .error ⟨"logo-detection", .jstr "TypeError"⟩
    | _ => .error ⟨"logo-detection", .jstr "TypeError"⟩

/-- Request body of `colorHarmonyStep`; `none` models a thrown
`TypeError` while assembling it. -/
def colorHarmonyRequest (m : JVal) : Option JVal :=
  match nv (m.get? "frame-extraction") with
  | none => none
  | some fe =>
    match fe.get? "frames" with
    | some (.jarr fs) =>
      match mapMO frameOut fs with
      | none => none
      | some frames =>
        let dets : Option (List JVal) :=
          match jpathRaw m "logo-detection" "detections" with
          | some (.jarr ds) => mapMO detOut ds
          | some .jnull => some []
          | some _ => none
          | none => some []
        match dets with
        | none => none
        | some logoDetections =>
          let prodOrNull : JVal :=
            match m.get? "productImageBase64" with
            | some v => if v.truthy then v else .jnull
            | none => .jnull
          some (.jobj
            ([("frames", .jarr frames), ("logoDetections", .jarr logoDetections)] ++
             (match m.get? "brandLogoBase64" with | some v => [("brandLogoBase64", v)] | none => []) ++
             [("productImageBase64", prodOrNull)] ++
             (match m.get? "brandContext" with | some v => [("brandContext", v)] | none => [])))
    | _ => none

def colorHarmonyExecute (o : Oracle) (m : JVal) : Except ExecErr JVal :=
  match colorHarmonyRequest m with
  | some req =>
    runCollab "color-harmony" "Failed to execute color harmony agent" normalizeColorHarmony
      (o.colorHarmony req)
  | none => .error ⟨"color-harmony", .jstr "TypeError"⟩

/-- Request body of `synthesizerStep`; plain `.report` access on a
missing or `null` upstream entry throws. -/
def synthesizerRequest (m : JVal) : Option JVal :=
  match nv (m.get? "overall-critic"), nv (m.get? "visual-style") with
  | some oc, some vs =>
    some (.jobj
      ((match oc.get? "report" with | some v => [("overallReport", v)] | none => []) ++
       (match vs.get? "report" with | some v => [("visualReport", v)] | none => []) ++
       (match jpathRaw m "audio-analysis" "report" with | some v => [("audioReport", v)] | none => []) ++
       (match m.get? "brandContext" with | some v => [("brandContext", v)] | none => [])))
  | _, _ => none

def synthesizerExecute (o : Oracle) (m : JVal) : Except ExecErr JVal :=
  match synthesizerRequest m with
  | some req =>
    runCollab "synthesizer" "Failed to execute synthesizer agent" normalizeCritique
      (o.synthesizer req)
  | none => .error ⟨"synthesizer", .jstr "TypeError"⟩

/-- Request body of `advisorStep`: the four reports it forwards
(each defaulting to an empty object), the brand context, and the
optional original prompt. -/
def advisorRequest (m : JVal) : JVal :=
  .jobj
    ([("brandAlignmentReport", (nv (jpathRaw m "overall-critic" "report")).getD (.jobj [])),
      ("synthesizerReport", (nv (jpathRaw m "synthesizer" "report")).getD (.jobj [])),
      ("safetyEthicsReport", (nv (jpathRaw m "safety-ethics" "report")).getD (.jobj [])),
      ("messageClarityReport", (nv (jpathRaw m "message-clarity" "report")).getD (.jobj []))] ++
     (match m.get? "brandContext" with | some v => [("brandContext", v)] | none => []) ++
     (match m.get? "originalPrompt" with | some v => [("originalPrompt", v)] | none => []))

def advisorExecute (o : Oracle) (m : JVal) : Except ExecErr JVal :=
  runCollab "advisor" "Failed to execute advisor agent" normalizeAdvisor
    (o.advisor (advisorRequest m))

/-! ### The composed pipeline (`brandAlignmentWorkflow`) and its run

The pipeline is fixed at build time: six fan-out steps, a merge (`map`)
step, `logo-detection`, a merge, `color-harmony`, a merge,
`synthesizer`, a merge, `advisor`.  The engine records one entry per
executed step (merge steps included, with ids starting `map`); a step
whose dependency failed is never started and has no entry.  A failing
step marks the run `failed` and stops scheduling; completed fan-out
siblings keep their records. -/

inductive StepStatus where
  | success
  | failed
  deriving DecidableEq

/-- The per-step record held by the run: final status, the normalized
output on success, the thrown message on failure. -/
structure StepRec where
  status : StepStatus
  output : Option JVal
  error : Option JVal
  deriving DecidableEq

def stepRecOf : Except ExecErr JVal → StepRec
  | .ok v => ⟨.success, some v, none⟩
  | .error e => ⟨.failed, none, some e.message⟩

/-- Result of `run.start`: overall status, ordered step records, and
the final (advisor) output on success. -/
structure Execution where
  status : String
  steps : List (String × StepRec)
  result : Option JVal
  deriving DecidableEq

/-- Merged object built by the first `map` step. -/
def merge1 (inp : WorkflowInput) (oc vs fe aa se mc : JVal) : JVal :=
  .jobj
    [("overall-critic", oc), ("visual-style", vs), ("frame-extraction", fe),
     ("audio-analysis", aa), ("safety-ethics", se), ("message-clarity", mc),
     ("brandContext", brandContextJson inp.brandContext),
     ("brandLogoBase64", .jstr inp.brandLogoBase64)]

/-- Merged object built by the second `map` step (adds the detection
output and the optional product image). -/
def merge2 (inp : WorkflowInput) (oc vs fe aa se mc ld : JVal) : JVal :=
  .jobj
    ([("overall-critic", oc), ("visual-style", vs), ("frame-extraction", fe),
      ("audio-analysis", aa), ("safety-ethics", se), ("message-clarity", mc),
      ("logo-detection", ld),
      ("brandContext", brandContextJson inp.brandContext),
      ("brandLogoBase64", .jstr inp.brandLogoBase64)] ++
     optField "productImageBase64" inp.productImageBase64)

/-- Merged object built by the third `map` step. -/
def merge3 (inp : WorkflowInput) (oc vs fe aa se mc ld ch : JVal) : JVal :=
  .jobj
    [("overall-critic", oc), ("visual-style", vs), ("frame-extraction", fe),
     ("audio-analysis", aa), ("safety-ethics", se), ("message-clarity", mc),
     ("logo-detection", ld), ("color-harmony", ch),
     ("brandContext", brandContextJson inp.brandContext),
     ("brandLogoBase64", .jstr inp.brandLogoBase64)]

/-- Merged object built by the fourth `map` step (adds the synthesizer
output and the optional original prompt). -/
def merge4 (inp : WorkflowInput) (oc vs fe aa se mc ld ch sy : JVal) : JVal :=
  .jobj
    ([("overall-critic", oc), ("visual-style", vs), ("frame-extraction", fe),
      ("audio-analysis", aa), ("safety-ethics", se), ("message-clarity", mc),
      ("logo-detection", ld), ("color-harmony", ch), ("synthesizer", sy),
      ("brandContext", brandContextJson inp.brandContext),
      ("brandLogoBase64", .jstr inp.brandLogoBase64)] ++
     optField "originalPrompt" inp.originalPrompt)

/-- Execute the whole `brandAlignmentWorkflow` pipeline against the
collaborators `o`. -/
def brandAlignmentWorkflow (o : Oracle) (inp : WorkflowInput) : Execution :=
  let rOC := overallCriticExecute o inp
  let rVS := visualStyleExecute o inp
  let rFE := frameExtractionExecute o inp
  let rAA := audioAnalysisExecute o inp
  let rSE := safetyEthicsExecute o inp
  let rMC := messageClarityExecute o inp
  let fanout : List (String × StepRec) :=
    [("overall-critic", stepRecOf rOC), ("visual-style", stepRecOf rVS),
     ("frame-extraction", stepRecOf rFE), ("audio-analysis", stepRecOf rAA),
     ("safety-ethics", stepRecOf rSE), ("message-clarity", stepRecOf rMC)]
  match rOC, rVS, rFE, rAA, rSE, rMC with
  | .ok oc, .ok vs, .ok fe, .ok aa, .ok se, .ok mc =>
    let m1 := merge1 inp oc vs fe aa se mc
    let steps1 := fanout ++ [("map-1", ⟨.success, some m1, none⟩)]
    match logoDetectionExecute o m1 with
    | .error e => ⟨"failed", steps1 ++ [("logo-detection", stepRecOf (.error e))], none⟩
    | .ok ld =>
      let m2 := merge2 inp oc vs fe aa se mc ld
      let steps2 := steps1 ++
        [("logo-detection", stepRecOf (.ok ld)), ("map-2", ⟨.success, some m2, none⟩)]
      match colorHarmonyExecute o m2 with
      | .error e => ⟨"failed", steps2 ++ [("color-harmony", stepRecOf (.error e))], none⟩
      | .ok ch =>
        let m3 := merge3 inp oc vs fe aa se mc ld ch
        let steps3 := steps2 ++
          [("color-harmony", stepRecOf (.ok ch)), ("map-3", ⟨.success, some m3, none⟩)]
        match synthesizerExecute o m3 with
        | .error e => ⟨"failed", steps3 ++ [("synthesizer", stepRecOf (.error e))], none⟩
        | .ok sy =>
          let m4 := merge4 inp oc vs fe aa se mc ld ch sy
          let steps4 := steps3 ++
            [("synthesizer", stepRecOf (.ok sy)), ("map-4", ⟨.success, some m4, none⟩)]
          match advisorExecute o m4 with
          | .error e => ⟨"failed", steps4 ++ [("advisor", stepRecOf (.error e))], none⟩
          | .ok adv => ⟨"success", steps4 ++ [("advisor", stepRecOf (.ok adv))], some adv⟩
  | _, _, _, _, _, _ => ⟨"failed", fanout, none⟩

/-! ### The route handler (`POST`) -/

/-- One zod issue: the field path and its message. -/
structure ValidationIssue where
  path : List String
  message : String
  deriving DecidableEq

/-- Raw JSON request body, already shaped but not yet validated
(strings may be empty). -/
structure RawBody where
  videoBase64 : String
  brandLogoBase64 : String
  productImageBase64 : Option String
  companyName : String
  productName : String
  briefPrompt : Option String
  originalPrompt : Option String
  stream : Bool
  deriving DecidableEq

/-- `workflowInputSchema.safeParse`: each `z.string().min(1, msg)`
check, in declaration order. -/
def validateBody (b : RawBody) : List ValidationIssue :=
  (if b.videoBase64 = "" then [⟨["videoBase64"], "videoBase64 is required"⟩] else []) ++
  (if b.brandLogoBase64 = "" then [⟨["brandLogoBase64"], "brandLogoBase64 is required"⟩] else []) ++
  (if b.companyName = "" then [⟨["brandContext", "companyName"], "companyName is required"⟩] else []) ++
  (if b.productName = "" then [⟨["brandContext", "productName"], "productName is required"⟩] else [])

/-- The parsed body on validation success. -/
def toInput (b : RawBody) : WorkflowInput :=
  ⟨b.videoBase64, b.brandLogoBase64, b.productImageBase64,
   ⟨b.companyName, b.productName, b.briefPrompt⟩, b.originalPrompt⟩

/-- `validation.data` as a JSON value (the payload echoed in the
synthetic `input` step). -/
def bodyJson (b : RawBody) : JVal :=
  .jobj
    ([("videoBase64", .jstr b.videoBase64), ("brandLogoBase64", .jstr b.brandLogoBase64)] ++
     optField "productImageBase64" b.productImageBase64 ++
     [("brandContext", brandContextJson ⟨b.companyName, b.productName, b.briefPrompt⟩)] ++
     optField "originalPrompt" b.originalPrompt)

/-- A formatted `WorkflowStep` record as returned to the caller. -/
structure WorkflowStepOut where
  id : String
  status : String
  startedAt : Option String
  endedAt : Option String
  payload : JVal
  output : JVal
  warnings : JVal
  metadata : JVal
  deriving DecidableEq

def statusString : StepStatus → String
  | .success => "success"
  | .failed => "failed"

/-- `formatStep` from the route.  The engine step records carry no
`payload` and no timestamps (they are not set by the engine for these
steps), so the per-id payload fallbacks always apply; timestamps
format to `null`. -/
def formatStep (validationData : JVal) (id : String) (s : StepRec) : WorkflowStepOut :=
  let payload : JVal :=
    if id = "overall-critic" ∨ id = "visual-style" ∨ id = "frame-extraction" ∨
        id = "logo-detection" ∨ id = "safety-ethics" ∨ id = "message-clarity" then
      validationData
    else if id = "synthesizer" ∧ validationData.truthy then
      .jobj
        ((match validationData.get? "brandContext" with
          | some v => [("brandContext", v)] | none => []) ++
         [("combinedFrom", .jarr [.jstr "overall-critic", .jstr "visual-style", .jstr "logo-detection"])])
    else if id = "advisor" ∧ validationData.truthy then
      .jobj
        ((match validationData.get? "brandContext" with
          | some v => [("brandContext", v)] | none => []) ++
         [("combinedFrom", .jarr [.jstr "synthesizer", .jstr "safety-ethics", .jstr "message-clarity"])])
    else .jnull
  let warnings : JVal :=
    match s.status, s.output with
    | .success, some out =>
      match nv (out.get? "warnings") with
      | some w => if w.truthy then w else .jarr []
      | none => .jarr []
    | _, _ => .jarr []
  ⟨id, statusString s.status, none, none, payload,
   (s.output).getD .jnull, warnings, .jnull⟩

/-- The synthetic `input` step prepended to every successful step list. -/
def inputStepOut (validationData : JVal) (now : String) : WorkflowStepOut :=
  ⟨"input", "success", some now, some now, validationData, .jnull, .jarr [], .jnull⟩

/-- `id.startsWith("map")`, expressed over character lists so that it
evaluates inside the kernel. -/
def strStartsWith (s pre : String) : Bool := pre.data.isPrefixOf s.data

/-- Formatted step list: engine records with internal `map` merge steps
filtered out. -/
def stepsOut (exec : Execution) (validationData : JVal) : List WorkflowStepOut :=
  (exec.steps.filter fun p => !(strStartsWith p.1 "map")).map
    fun p => formatStep validationData p.1 p.2

/-- Buffered-mode JSON response. -/
inductive ApiResponse where
  | validationError (details : List ValidationIssue)
  | workflowFailed (status : String) (details : Execution)
  | success (status : String) (result : JVal) (steps : List WorkflowStepOut)
  deriving DecidableEq

def httpStatus : ApiResponse → Nat
  | .validationError _ => 400
  | .workflowFailed _ _ => 500
  | .success _ _ _ => 200

/-- Buffered (non-streaming) `POST` handler. -/
def bufferedPOST (o : Oracle) (b : RawBody) (now : String) : ApiResponse :=
  let issues := validateBody b
  if issues = [] then
    let exec := brandAlignmentWorkflow o (toInput b)
    if exec.status = "success" then
      .success exec.status ((exec.result).getD .jnull)
        (inputStepOut (bodyJson b) now :: stepsOut exec (bodyJson b))
    else .workflowFailed exec.status exec
  else .validationError issues

/-- One streamed event frame. -/
inductive Event where
  | step (s : WorkflowStepOut)
  | complete (status : String) (result : JVal) (steps : List WorkflowStepOut)
  | error (message : String) (status : Option String)
  deriving DecidableEq

/-- Streaming-mode `POST` handler: validation still rejects with a 400
JSON response before the stream opens; otherwise the event sequence is
the synthetic `input` step, one `step` frame per non-merge record, and
the terminal `complete` frame (or a terminal `error` frame). -/
def streamingPOST (o : Oracle) (b : RawBody) (now : String) :
    Except (List ValidationIssue) (List Event) :=
  let issues := validateBody b
  if issues = [] then
    let exec := brandAlignmentWorkflow o (toInput b)
    if exec.status = "success" then
      let steps := stepsOut exec (bodyJson b)
      .ok ([Event.step (inputStepOut (bodyJson b) now)] ++
        steps.map Event.step ++
        [Event.complete exec.status ((exec.result).getD .jnull)
          (inputStepOut (bodyJson b) now :: steps)])
    else
      .ok [Event.step (inputStepOut (bodyJson b) now),
           Event.error "Workflow failed to execute" (some exec.status)]
  else .error issues

/-! ### Lemmas about the JSON combinators -/

theorem nv_some_ne_null {x : Option JVal} {v : JVal} (h : nv x = some v) : v ≠ .jnull := by
  intro hv
  subst hv
  match x with
  | none => exact Option.noConfusion h
  | some w => cases w <;> simp [nv] at h

theorem nv_some_of_ne_null {v : JVal} (h : v ≠ .jnull) : nv (some v) = some v := by
  cases v
  · exact absurd rfl h
  all_goals rfl

theorem jfield_null {p : JVal} {ks : List String} {d : JVal}
    (h : jfield p ks d = .jnull) : d = .jnull := by
  induction ks with
  | nil => exact h
  | cons k ks ih =>
    unfold jfield at h
    cases hh : oget p k with
    | some v => rw [hh] at h; exact absurd h.symm (Ne.symm (nv_some_ne_null hh))
    | none => rw [hh] at h; exact ih h

theorem jfield1_roundtrip {c : JVal} {k₁ : String} {d v : JVal}
    (h₁ : c.get? k₁ = some v) (hd : v = .jnull → d = .jnull) :
    jfield c [k₁] d = v := by
  by_cases hv : v = .jnull
  · subst hv
    show (match oget c k₁ with | some w => w | none => jfield c [] d) = .jnull
    rw [oget, h₁]
    show (match (nv (some .jnull) : Option JVal) with | some w => w | none => d) = .jnull
    exact hd rfl
  · show (match oget c k₁ with | some w => w | none => jfield c [] d) = v
    rw [oget, h₁, nv_some_of_ne_null hv]

theorem jfield2_roundtrip {c : JVal} {k₁ k₂ : String} {d v : JVal}
    (h₁ : c.get? k₁ = some v) (h₂ : c.get? k₂ = none) (hd : v = .jnull → d = .jnull) :
    jfield c [k₁, k₂] d = v := by
  by_cases hv : v = .jnull
  · subst hv
    show (match oget c k₁ with | some w => w | none => jfield c [k₂] d) = .jnull
    rw [oget, h₁]
    show jfield c [k₂] d = .jnull
    show (match oget c k₂ with | some w => w | none => jfield c [] d) = .jnull
    rw [oget, h₂]
    exact hd rfl
  · show (match oget c k₁ with | some w => w | none => jfield c [k₂] d) = v
    rw [oget, h₁, nv_some_of_ne_null hv]

theorem mapMO_eq_self {f : JVal → Option JVal} : ∀ {l : List JVal},
    (∀ x ∈ l, f x = some x) → mapMO f l = some l := by
  intro l
  induction l with
  | nil => intro _; rfl
  | cons x xs ih =>
    intro h
    have hx := h x (by simp)
    have hxs := ih fun y hy => h y (by simp [hy])
    unfold mapMO
    rw [hx, hxs]

theorem mapMO_mem {f : JVal → Option JVal} : ∀ {l l' : List JVal},
    mapMO f l = some l' → ∀ y ∈ l', ∃ x ∈ l, f x = some y := by
  intro l
  induction l with
  | nil =>
    intro l' h y hy
    unfold mapMO at h
    cases h
    cases hy
  | cons x xs ih =>
    intro l' h y hy
    unfold mapMO at h
    cases hfx : f x with
    | none => rw [hfx] at h; exact Option.noConfusion h
    | some z =>
      rw [hfx] at h
      cases hrest : mapMO f xs with
      | none => rw [hrest] at h; exact Option.noConfusion h
      | some zs =>
        rw [hrest] at h
        injection h with h
        subst h
        rcases List.mem_cons.mp hy with hy | hy
        · exact ⟨x, by simp, hy ▸ hfx⟩
        · rcases ih hrest y hy with ⟨w, hw, hfw⟩
          exact ⟨w, by simp [hw], hfw⟩

theorem mapWithIndex_eq_self {g : Nat → JVal → JVal} : ∀ {l : List JVal} {i : Nat},
    (∀ x ∈ l, ∀ j, g j x = x) → mapWithIndex g i l = l := by
  intro l
  induction l with
  | nil => intro i _; rfl
  | cons x xs ih =>
    intro i h
    unfold mapWithIndex
    rw [h x (by simp) i, ih fun y hy j => h y (by simp [hy]) j]

theorem mapWithIndex_mem {g : Nat → JVal → JVal} : ∀ {l : List JVal} {i : Nat} {y : JVal},
    y ∈ mapWithIndex g i l → ∃ j x, x ∈ l ∧ y = g j x := by
  intro l
  induction l with
  | nil => intro i y h; cases h
  | cons x xs ih =>
    intro i y h
    unfold mapWithIndex at h
    rcases List.mem_cons.mp h with h | h
    · exact ⟨i, x, by simp, h⟩
    · rcases ih h with ⟨j, w, hw, hy⟩
      exact ⟨j, w, by simp [hw], hy⟩

/-! ### Idempotence of the schema normalizers -/

theorem normalizeFrame_fixed (r : ℚ) (i : Nat) (a b : ℚ) (s : String) :
    normalizeFrame r i
      (.jobj [("frame_number", .jnum a), ("timestamp", .jnum b), ("image_base64", .jstr s)]) =
    .jobj [("frame_number", .jnum a), ("timestamp", .jnum b), ("image_base64", .jstr s)] := rfl

theorem normalizeFrames_shape {rate : ℚ} {p : JVal} :
    ∀ f ∈ normalizeFrames rate p, ∃ a b s, s ≠ "" ∧
      f = .jobj [("frame_number", .jnum a), ("timestamp", .jnum b), ("image_base64", .jstr s)] := by
  intro f hf
  unfold normalizeFrames at hf
  cases hp : p.get? "frames" with
  | none => rw [hp] at hf; cases hf
  | some v =>
    rw [hp] at hf
    cases v with
    | jarr fs =>
      have hmem := List.mem_filter.mp hf
      rcases mapWithIndex_mem hmem.1 with ⟨j, x, hx, hfx⟩
      refine ⟨_, _, frameImage x, ?_, by rw [hfx]; rfl⟩
      have ht := hmem.2
      rw [hfx] at ht
      simpa [normalizeFrame, JVal.get?, List.lookup, JVal.truthy] using ht
    | jnull => cases hf
    | jbool b => cases hf
    | jnum q => cases hf
    | jstr s => cases hf
    | jobj l => cases hf

theorem normFE_canon (L : List JVal) (vt vd vf vw : JVal) (r : ℚ)
    (hL : ∀ f ∈ L, ∃ a b s, s ≠ "" ∧
      f = .jobj [("frame_number", .jnum a), ("timestamp", .jnum b), ("image_base64", .jstr s)])
    (ht : vt ≠ .jnull) (hd : vd ≠ .jnull) (hf : vf ≠ .jnull) (hw : vw ≠ .jnull) :
    normalizeFrameExtraction (.jobj [("frames", .jarr L), ("total_frames_extracted", vt),
      ("video_duration", vd), ("video_fps", vf), ("extraction_rate", .jnum r), ("warnings", vw)]) =
    some (.jobj [("frames", .jarr L), ("total_frames_extracted", vt), ("video_duration", vd),
      ("video_fps", vf), ("extraction_rate", .jnum r), ("warnings", vw)]) := by
  have hmap : mapWithIndex (normalizeFrame r) 0 L = L := by
    apply mapWithIndex_eq_self
    intro x hx j
    rcases hL x hx with ⟨a, b, s, _, rfl⟩
    exact normalizeFrame_fixed r j a b s
  unfold normalizeFrameExtraction
  rw [if_neg (fun hh => JVal.noConfusion hh)]
  simp [normalizeFrames, normalizeNumber, jfield, oget, nv, JVal.get?, List.lookup, hmap]
  intro x hx
  rcases hL x hx with ⟨a, b, s, hs, rfl⟩
  simpa [List.lookup, JVal.truthy] using hs

theorem normalizeFrameExtraction_idem {p c : JVal}
    (h : normalizeFrameExtraction p = some c) :
    normalizeFrameExtraction c = some c := by
  unfold normalizeFrameExtraction at h
  by_cases hp : p = .jnull
  · rw [if_pos hp] at h; exact Option.noConfusion h
  · rw [if_neg hp] at h
    injection h with h
    subst h
    apply normFE_canon
    · exact normalizeFrames_shape
    · intro hh; exact JVal.noConfusion (jfield_null hh)
    · intro hh; exact JVal.noConfusion (jfield_null hh)
    · intro hh; exact JVal.noConfusion (jfield_null hh)
    · intro hh; exact JVal.noConfusion (jfield_null hh)

theorem normalizeDetection_shape {d o : JVal} (h : normalizeDetection d = some o) :
    ∃ v₁ v₂ v₃ v₄ v₅ v₆ v₇, v₁ ≠ .jnull ∧ v₂ ≠ .jnull ∧ v₃ ≠ .jnull ∧ v₄ ≠ .jnull ∧
      o = .jobj [("frame_number", v₁), ("timestamp", v₂), ("method", v₃), ("confidence", v₄),
        ("bounding_box", v₅), ("crop_image_base64", v₆), ("notes", v₇)] := by
  unfold normalizeDetection at h
  by_cases hd : d = .jnull
  · rw [if_pos hd] at h; exact Option.noConfusion h
  · rw [if_neg hd] at h
    injection h with h
    exact ⟨_, _, _, _, _, _, _,
      fun hh => JVal.noConfusion (jfield_null hh),
      fun hh => JVal.noConfusion (jfield_null hh),
      fun hh => JVal.noConfusion (jfield_null hh),
      fun hh => JVal.noConfusion (jfield_null hh), h.symm⟩

theorem normalizeDetection_canon (v₁ v₂ v₃ v₄ v₅ v₆ v₇ : JVal)
    (h₁ : v₁ ≠ .jnull) (h₂ : v₂ ≠ .jnull) (h₃ : v₃ ≠ .jnull) (h₄ : v₄ ≠ .jnull) :
    normalizeDetection (.jobj [("frame_number", v₁), ("timestamp", v₂), ("method", v₃),
      ("confidence", v₄), ("bounding_box", v₅), ("crop_image_base64", v₆), ("notes", v₇)]) =
    some (.jobj [("frame_number", v₁), ("timestamp", v₂), ("method", v₃), ("confidence", v₄),
      ("bounding_box", v₅), ("crop_image_base64", v₆), ("notes", v₇)]) := by
  unfold normalizeDetection
  rw [if_neg (fun hh => JVal.noConfusion hh)]
  rcases eq_or_ne v₅ .jnull with rfl | h₅ <;>
  rcases eq_or_ne v₆ .jnull with rfl | h₆ <;>
  rcases eq_or_ne v₇ .jnull with rfl | h₇ <;>
    simp [*, jfield, oget, nv, List.lookup, JVal.get?, nv_some_of_ne_null]

theorem normalizeDetection_fixed {x y : JVal} (h : normalizeDetection x = some y) :
    normalizeDetection y = some y := by
  rcases normalizeDetection_shape h with ⟨v₁, v₂, v₃, v₄, v₅, v₆, v₇, h₁, h₂, h₃, h₄, rfl⟩
  exact normalizeDetection_canon v₁ v₂ v₃ v₄ v₅ v₆ v₇ h₁ h₂ h₃ h₄

theorem normLD_canon (lf : JVal) (ds : List JVal) (pr mu w n : JVal)
    (hlf : lf ≠ .jnull) (hw : w ≠ .jnull)
    (hds : ∀ y ∈ ds, normalizeDetection y = some y)
    (hpr : pr = .jnull ∨ ((∃ fs, pr = .jobj fs) ∧ normalizeDetection pr = some pr)) :
    normalizeLogoDetection (.jobj [("logo_found", lf), ("detections", .jarr ds),
      ("primary_detection", pr), ("method_used", mu), ("warnings", w), ("notes", n)]) =
    some (.jobj [("logo_found", lf), ("detections", .jarr ds), ("primary_detection", pr),
      ("method_used", mu), ("warnings", w), ("notes", n)]) := by
  have hdets := mapMO_eq_self hds
  unfold normalizeLogoDetection
  rw [if_neg (fun hh => JVal.noConfusion hh)]
  rcases hpr with rfl | ⟨⟨fs, hfs⟩, hnd⟩
  · rcases eq_or_ne mu .jnull with rfl | hmu <;>
    rcases eq_or_ne n .jnull with rfl | hn <;>
      simp [*, jfield, oget, nv, List.lookup, JVal.get?, JVal.truthy, nv_some_of_ne_null]
  · subst hfs
    rcases eq_or_ne mu .jnull with rfl | hmu <;>
    rcases eq_or_ne n .jnull with rfl | hn <;>
      simp [*, jfield, oget, nv, List.lookup, JVal.get?, JVal.truthy, nv_some_of_ne_null]

theorem normalizeLogoDetection_shape {p c : JVal} (h : normalizeLogoDetection p = some c) :
    ∃ lf ds pr mu w n, lf ≠ .jnull ∧ w ≠ .jnull ∧
      (∀ y ∈ ds, normalizeDetection y = some y) ∧
      (pr = .jnull ∨ ((∃ fs, pr = .jobj fs) ∧ normalizeDetection pr = some pr)) ∧
      c = .jobj [("logo_found", lf), ("detections", .jarr ds), ("primary_detection", pr),
        ("method_used", mu), ("warnings", w), ("notes", n)] := by
  by_cases hp : p = .jnull
  · unfold normalizeLogoDetection at h
    rw [if_pos hp] at h
    exact Option.noConfusion h
  · simp only [normalizeLogoDetection, if_neg hp] at h
    cases hM : (match p.get? "detections" with
      | some (.jarr ds) => mapMO normalizeDetection ds
      | _ => some []) with
    | none => rw [hM] at h; exact Option.noConfusion h
    | some ds =>
      rw [hM] at h
      cases hP : (if (jfield p ["primary_detection", "primaryDetection"] .jnull).truthy then
          normalizeDetection (jfield p ["primary_detection", "primaryDetection"] .jnull)
        else some .jnull) with
      | none => rw [hP] at h; exact Option.noConfusion h
      | some pr =>
        rw [hP] at h
        injection h with h
        have hds : ∀ y ∈ ds, normalizeDetection y = some y := by
          cases hg : p.get? "detections" with
          | none =>
            rw [hg] at hM
            injection hM with hM
            subst hM
            intro y hy
            cases hy
          | some v =>
            rw [hg] at hM
            cases v with
            | jarr l =>
              intro y hy
              rcases mapMO_mem hM y hy with ⟨x, _, hfx⟩
              exact normalizeDetection_fixed hfx
            | jnull => injection hM with hM; subst hM; intro y hy; cases hy
            | jbool b => injection hM with hM; subst hM; intro y hy; cases hy
            | jnum q => injection hM with hM; subst hM; intro y hy; cases hy
            | jstr s => injection hM with hM; subst hM; intro y hy; cases hy
            | jobj l => injection hM with hM; subst hM; intro y hy; cases hy
        have hpr : pr = .jnull ∨ ((∃ fs, pr = .jobj fs) ∧ normalizeDetection pr = some pr) := by
          by_cases htr : (jfield p ["primary_detection", "primaryDetection"] .jnull).truthy
          · rw [if_pos htr] at hP
            rcases normalizeDetection_shape hP with ⟨v₁, v₂, v₃, v₄, v₅, v₆, v₇, h₁, h₂, h₃, h₄, rfl⟩
            exact Or.inr ⟨⟨_, rfl⟩, normalizeDetection_canon v₁ v₂ v₃ v₄ v₅ v₆ v₇ h₁ h₂ h₃ h₄⟩
          · rw [if_neg htr] at hP
            injection hP with hP
            exact Or.inl hP.symm
        exact ⟨_, ds, pr, _, _, _,
          fun hh => JVal.noConfusion (jfield_null hh),
          fun hh => JVal.noConfusion (jfield_null hh),
          hds, hpr, h.symm⟩

theorem normalizeLogoDetection_idem {p c : JVal} (h : normalizeLogoDetection p = some c) :
    normalizeLogoDetection c = some c := by
  rcases normalizeLogoDetection_shape h with ⟨lf, ds, pr, mu, w, n, hlf, hw, hds, hpr, rfl⟩
  exact normLD_canon lf ds pr mu w n hlf hw hds hpr

theorem normCH_canon (v₁ v₂ v₃ v₄ v₅ v₆ v₇ v₈ : JVal)
    (h₁ : v₁ ≠ .jnull) (h₃ : v₃ ≠ .jnull) (h₄ : v₄ ≠ .jnull) (h₅ : v₅ ≠ .jnull)
    (h₆ : v₆ ≠ .jnull) (h₇ : v₇ ≠ .jnull) (h₈ : v₈ ≠ .jnull) :
    normalizeColorHarmony (.jobj [("overall_score", v₁), ("logo_colors", v₂), ("frame_colors", v₃),
      ("brand_logo_colors", v₄), ("color_alignment_score", v₅), ("analysis", v₆),
      ("recommendations", v₇), ("warnings", v₈)]) =
    some (.jobj [("overall_score", v₁), ("logo_colors", v₂), ("frame_colors", v₃),
      ("brand_logo_colors", v₄), ("color_alignment_score", v₅), ("analysis", v₆),
      ("recommendations", v₇), ("warnings", v₈)]) := by
  unfold normalizeColorHarmony
  rw [if_neg (fun hh => JVal.noConfusion hh)]
  rcases eq_or_ne v₂ .jnull with rfl | h₂ <;>
    simp [*, jfield, oget, nv, List.lookup, JVal.get?, nv_some_of_ne_null]

theorem normalizeColorHarmony_shape {p c : JVal} (h : normalizeColorHarmony p = some c) :
    ∃ v₁ v₂ v₃ v₄ v₅ v₆ v₇ v₈, v₁ ≠ .jnull ∧ v₃ ≠ .jnull ∧ v₄ ≠ .jnull ∧ v₅ ≠ .jnull ∧
      v₆ ≠ .jnull ∧ v₇ ≠ .jnull ∧ v₈ ≠ .jnull ∧
      c = .jobj [("overall_score", v₁), ("logo_colors", v₂), ("frame_colors", v₃),
        ("brand_logo_colors", v₄), ("color_alignment_score", v₅), ("analysis", v₆),
        ("recommendations", v₇), ("warnings", v₈)] := by
  unfold normalizeColorHarmony at h
  by_cases hp : p = .jnull
  · rw [if_pos hp] at h; exact Option.noConfusion h
  · rw [if_neg hp] at h
    injection h with h
    exact ⟨_, _, _, _, _, _, _, _,
      fun hh => JVal.noConfusion (jfield_null hh),
      fun hh => JVal.noConfusion (jfield_null hh),
      fun hh => JVal.noConfusion (jfield_null hh),
      fun hh => JVal.noConfusion (jfield_null hh),
      fun hh => JVal.noConfusion (jfield_null hh),
      fun hh => JVal.noConfusion (jfield_null hh),
      fun hh => JVal.noConfusion (jfield_null hh), h.symm⟩

theorem normalizeColorHarmony_idem {p c : JVal} (h : normalizeColorHarmony p = some c) :
    normalizeColorHarmony c = some c := by
  rcases normalizeColorHarmony_shape h with ⟨v₁, v₂, v₃, v₄, v₅, v₆, v₇, v₈, h₁, h₃, h₄, h₅, h₆, h₇, h₈, rfl⟩
  exact normCH_canon v₁ v₂ v₃ v₄ v₅ v₆ v₇ v₈ h₁ h₃ h₄ h₅ h₆ h₇ h₈

theorem normalizeFrameExtraction_shape {p c : JVal} (h : normalizeFrameExtraction p = some c) :
    ∃ fr vt vd vf r w, c = .jobj [("frames", .jarr fr), ("total_frames_extracted", vt),
      ("video_duration", vd), ("video_fps", vf), ("extraction_rate", .jnum r), ("warnings", w)] := by
  unfold normalizeFrameExtraction at h
  by_cases hp : p = .jnull
  · rw [if_pos hp] at h; exact Option.noConfusion h
  · rw [if_neg hp] at h
    injection h with h
    exact ⟨_, _, _, _, _, _, h.symm⟩

/-- C5: the Schema Normalizer is idempotent.  For each of the three
collaborator-specific normalizers (FrameSet, LogoDetection,
ColorHarmony), a response already in canonical shape — that is, any
value the normalizer itself can produce — normalizes to itself. -/
theorem c5_schema_normalizer_idempotent :
    (∀ p c, normalizeFrameExtraction p = some c → normalizeFrameExtraction c = some c) ∧
    (∀ p c, normalizeLogoDetection p = some c → normalizeLogoDetection c = some c) ∧
    (∀ p c, normalizeColorHarmony p = some c → normalizeColorHarmony c = some c) :=
  ⟨fun _ _ h => normalizeFrameExtraction_idem h,
   fun _ _ h => normalizeLogoDetection_idem h,
   fun _ _ h => normalizeColorHarmony_idem h⟩

/-- Concrete instantiation of `c5_schema_normalizer_idempotent`. -/
theorem c5_schema_normalizer_idempotent_witness :
    normalizeFrameExtraction
      (.jobj [("frames", .jarr []), ("total_frames_extracted", .jnum 0),
        ("video_duration", .jnum 0), ("video_fps", .jnum 0), ("extraction_rate", .jnum 2),
        ("warnings", .jarr [])]) =
      some (.jobj [("frames", .jarr []), ("total_frames_extracted", .jnum 0),
        ("video_duration", .jnum 0), ("video_fps", .jnum 0), ("extraction_rate", .jnum 2),
        ("warnings", .jarr [])]) ∧
    normalizeLogoDetection
      (.jobj [("logo_found", .jbool false), ("detections", .jarr []),
        ("primary_detection", .jnull), ("method_used", .jnull), ("warnings", .jarr []),
        ("notes", .jnull)]) =
      some (.jobj [("logo_found", .jbool false), ("detections", .jarr []),
        ("primary_detection", .jnull), ("method_used", .jnull), ("warnings", .jarr []),
        ("notes", .jnull)]) ∧
    normalizeColorHarmony
      (.jobj [("overall_score", .jnum 0), ("logo_colors", .jnull),
        ("frame_colors", defaultPalette), ("brand_logo_colors", defaultPalette),
        ("color_alignment_score", .jnum 0), ("analysis", .jstr ""),
        ("recommendations", .jarr []), ("warnings", .jarr [])]) =
      some (.jobj [("overall_score", .jnum 0), ("logo_colors", .jnull),
        ("frame_colors", defaultPalette), ("brand_logo_colors", defaultPalette),
        ("color_alignment_score", .jnum 0), ("analysis", .jstr ""),
        ("recommendations", .jarr []), ("warnings", .jarr [])]) :=
  ⟨c5_schema_normalizer_idempotent.1 (.jobj []) _ (by decide),
   c5_schema_normalizer_idempotent.2.1 (.jobj []) _ (by decide),
   c5_schema_normalizer_idempotent.2.2 (.jobj []) _ (by decide)⟩

/-- All-default outputs of the three normalizers, as produced when
every accepted spelling is absent from the raw response. -/
def frameExtractionDefaults : JVal :=
  .jobj [("frames", .jarr []), ("total_frames_extracted", .jnum 0), ("video_duration", .jnum 0),
    ("video_fps", .jnum 0), ("extraction_rate", .jnum 2), ("warnings", .jarr [])]

def logoDetectionDefaults : JVal :=
  .jobj [("logo_found", .jbool false), ("detections", .jarr []), ("primary_detection", .jnull),
    ("method_used", .jnull), ("warnings", .jarr []), ("notes", .jnull)]

def colorHarmonyDefaults : JVal :=
  .jobj [("overall_score", .jnum 0), ("logo_colors", .jnull), ("frame_colors", defaultPalette),
    ("brand_logo_colors", defaultPalette), ("color_alignment_score", .jnum 0),
    ("analysis", .jstr ""), ("recommendations", .jarr []), ("warnings", .jarr [])]

/-- C6 counterexample: the claim promises that a numeric field supplied
as a string is parsed, with the declared default (`0`) on failure.  For
`total_frames_extracted` the code performs plain `??` probing with no
`normalizeNumber` call, so the malformed string survives verbatim in
the normalized output instead of the declared default. -/
theorem c6_normalizer_defaults_counterexample :
    normalizeFrameExtraction (.jobj [("total_frames_extracted", .jstr "abc")]) =
      some (.jobj [("frames", .jarr []), ("total_frames_extracted", .jstr "abc"),
        ("video_duration", .jnum 0), ("video_fps", .jnum 0), ("extraction_rate", .jnum 2),
        ("warnings", .jarr [])]) ∧
    jsParseFloat "abc" = none ∧ JVal.jstr "abc" ≠ JVal.jnum 0 :=
  ⟨by decide, by decide, by decide⟩

/-- C6 (amended): every declared output field is always present in the
normalized output under its canonical name; when every accepted
spelling of a field is absent or null the field carries its declared
default (empty list, `0`, `null`, `false`, empty string, default
palette); string representations of numbers are parsed — with fallback
to the declared default when unparseable — only by the frame-sampling
step fields routed through `normalizeNumber` (the extraction rate and
the per-frame number/timestamp); a malformed present value of another
numeric field (for example `total_frames_extracted`) is kept verbatim. -/
theorem c6_normalizer_defaults :
    (∀ p c, normalizeFrameExtraction p = some c → ∃ fr vt vd vf r w,
        c = .jobj [("frames", .jarr fr), ("total_frames_extracted", vt), ("video_duration", vd),
          ("video_fps", vf), ("extraction_rate", .jnum r), ("warnings", w)]) ∧
    (∀ p c, normalizeLogoDetection p = some c → ∃ lf ds pr mu w n,
        c = .jobj [("logo_found", lf), ("detections", .jarr ds), ("primary_detection", pr),
          ("method_used", mu), ("warnings", w), ("notes", n)]) ∧
    (∀ p c, normalizeColorHarmony p = some c → ∃ v₁ v₂ v₃ v₄ v₅ v₆ v₇ v₈,
        c = .jobj [("overall_score", v₁), ("logo_colors", v₂), ("frame_colors", v₃),
          ("brand_logo_colors", v₄), ("color_alignment_score", v₅), ("analysis", v₆),
          ("recommendations", v₇), ("warnings", v₈)]) ∧
    (∀ p, p ≠ .jnull → (∀ k, p.get? k = none) →
        normalizeFrameExtraction p = some frameExtractionDefaults ∧
        normalizeLogoDetection p = some logoDetectionDefaults ∧
        normalizeColorHarmony p = some colorHarmonyDefaults) ∧
    (∀ s d, normalizeNumber (some (.jstr s)) d =
        match jsParseFloat s with | some q => q | none => d) ∧
    (∀ fs s, List.lookup "extraction_rate" fs = some (.jstr s) → ∃ c,
        normalizeFrameExtraction (.jobj fs) = some c ∧
        c.get? "extraction_rate" = some (.jnum (normalizeNumber (some (.jstr s)) 2))) ∧
    (∀ fs v, List.lookup "total_frames_extracted" fs = some v → v ≠ .jnull → ∃ c,
        normalizeFrameExtraction (.jobj fs) = some c ∧
        c.get? "total_frames_extracted" = some v) := by
  refine ⟨?_, ?_, ?_, ?_, ?_, ?_, ?_⟩
  · intro p c h
    rcases normalizeFrameExtraction_shape h with ⟨fr, vt, vd, vf, r, w, rfl⟩
    exact ⟨fr, vt, vd, vf, r, w, rfl⟩
  · intro p c h
    rcases normalizeLogoDetection_shape h with ⟨lf, ds, pr, mu, w, n, _, _, _, _, rfl⟩
    exact ⟨lf, ds, pr, mu, w, n, rfl⟩
  · intro p c h
    rcases normalizeColorHarmony_shape h with ⟨v₁, v₂, v₃, v₄, v₅, v₆, v₇, v₈, _, _, _, _, _, _, _, rfl⟩
    exact ⟨v₁, v₂, v₃, v₄, v₅, v₆, v₇, v₈, rfl⟩
  · intro p hp hk
    refine ⟨?_, ?_, ?_⟩
    · unfold normalizeFrameExtraction
      rw [if_neg hp]
      simp [normalizeFrames, normalizeNumber, jfield, oget, nv, hk, frameExtractionDefaults]
    · unfold normalizeLogoDetection
      rw [if_neg hp]
      simp [jfield, oget, nv, hk, JVal.truthy, logoDetectionDefaults]
    · unfold normalizeColorHarmony
      rw [if_neg hp]
      simp [jfield, oget, nv, hk, colorHarmonyDefaults]
  · intro s d
    rfl
  · intro fs s h
    refine ⟨_, rfl, ?_⟩
    simp [JVal.get?, List.lookup, oget, nv, h, normalizeNumber]
  · intro fs v h hv
    refine ⟨_, rfl, ?_⟩
    show some (jfield (.jobj fs) ["total_frames_extracted", "totalFramesExtracted"] (.jnum 0)) = some v
    show some (match oget (.jobj fs) "total_frames_extracted" with
      | some w => w
      | none => jfield (.jobj fs) ["totalFramesExtracted"] (.jnum 0)) = some v
    rw [show oget (.jobj fs) "total_frames_extracted" = some v from by
      rw [oget, show (JVal.jobj fs).get? "total_frames_extracted" = some v from h,
        nv_some_of_ne_null hv]]

/-- Concrete instantiation of `c6_normalizer_defaults` on an empty
response object: every field of every normalizer comes out as its
declared default. -/
theorem c6_normalizer_defaults_witness :
    normalizeFrameExtraction (.jobj []) = some frameExtractionDefaults ∧
    normalizeLogoDetection (.jobj []) = some logoDetectionDefaults ∧
    normalizeColorHarmony (.jobj []) = some colorHarmonyDefaults :=
  c6_normalizer_defaults.2.2.2.1 (.jobj []) (by decide) (fun _ => rfl)

/-! ### Claim theorems: request constants and error propagation -/

/-- C10: the frame-sampling collaborator is always invoked with the
build-time constant `framesPerSecond = 2.0`; no field of the workflow
input reaches that parameter. -/
theorem c10_sampling_rate_constant :
    ∀ inp : WorkflowInput,
      frameExtractionRequest inp =
        .jobj [("videoBase64", .jstr inp.videoBase64), ("framesPerSecond", .jnum 2)] ∧
      (frameExtractionRequest inp).get? "framesPerSecond" = some (.jnum 2) ∧
      ∀ inp₂ : WorkflowInput,
        (frameExtractionRequest inp).get? "framesPerSecond" =
          (frameExtractionRequest inp₂).get? "framesPerSecond" :=
  fun _ => ⟨rfl, rfl, fun _ => rfl⟩

theorem runCollab_not_ok {id g : String} {n : JVal → Option JVal} {r : CollabResponse}
    (h : r.ok = false) : runCollab id g n r = .error ⟨id, errMsg g r⟩ := by
  unfold runCollab
  rw [h]
  rfl

/-- C7: every step executor turns a non-success collaborator response
into a failure carrying the step id and the message selected by the
chain `detail ?? error ?? statusText ?? generic` (the generic per-step
text also stands when the error body is not parseable JSON). -/
theorem c7_execution_error_messages :
    (∀ (id g : String) (n : JVal → Option JVal) (r : CollabResponse), r.ok = false →
        runCollab id g n r = .error ⟨id, errMsg g r⟩) ∧
    (∀ (b d : JVal) (st : Option String) (g : String), nv (b.get? "detail") = some d →
        errMsg g ⟨false, some b, st⟩ = d) ∧
    (∀ (b e : JVal) (st : Option String) (g : String),
        nv (b.get? "detail") = none → nv (b.get? "error") = some e →
        errMsg g ⟨false, some b, st⟩ = e) ∧
    (∀ (b : JVal) (s g : String), nv (b.get? "detail") = none → nv (b.get? "error") = none →
        errMsg g ⟨false, some b, some s⟩ = .jstr s) ∧
    (∀ (b : JVal) (g : String), nv (b.get? "detail") = none → nv (b.get? "error") = none →
        errMsg g ⟨false, some b, none⟩ = .jstr g) ∧
    (∀ (st : Option String) (g : String), errMsg g ⟨false, none, st⟩ = .jstr g) ∧
    (∀ (o : Oracle) (inp : WorkflowInput), (o.overallCritic (critiqueRequest inp)).ok = false →
        overallCriticExecute o inp = .error ⟨"overall-critic",
          errMsg "Failed to execute overall critic agent" (o.overallCritic (critiqueRequest inp))⟩) ∧
    (∀ (o : Oracle) (inp : WorkflowInput), (o.frameExtraction (frameExtractionRequest inp)).ok = false →
        frameExtractionExecute o inp = .error ⟨"frame-extraction",
          errMsg "Failed to execute frame extraction agent" (o.frameExtraction (frameExtractionRequest inp))⟩) ∧
    (∀ (o : Oracle) (inp : WorkflowInput), (o.safetyEthics (critiqueRequest inp)).ok = false →
        safetyEthicsExecute o inp = .error ⟨"safety-ethics",
          errMsg "Failed to execute safety and ethics agent" (o.safetyEthics (critiqueRequest inp))⟩) ∧
    (∀ (o : Oracle) (m : JVal), advisorExecute o m = runCollab "advisor"
        "Failed to execute advisor agent" normalizeAdvisor (o.advisor (advisorRequest m))) := by
  refine ⟨fun _ _ _ _ h => runCollab_not_ok h, ?_, ?_, ?_, ?_, ?_, ?_, ?_, ?_, fun _ _ => rfl⟩
  · intro b d st g h
    simp [errMsg, h]
  · intro b e st g h1 h2
    simp [errMsg, h1, h2]
  · intro b s g h1 h2
    simp [errMsg, h1, h2]
  · intro b g h1 h2
    simp [errMsg, h1, h2]
  · intro st g
    rfl
  · intro o inp h
    exact runCollab_not_ok h
  · intro o inp h
    exact runCollab_not_ok h
  · intro o inp h
    exact runCollab_not_ok h

/-- Concrete instantiation of `c7_execution_error_messages`: a 500
response whose JSON body carries a `detail` field fails the step with
exactly that detail as the message. -/
theorem c7_execution_error_messages_witness :
    runCollab "safety-ethics" "Failed to execute safety and ethics agent" normalizeCritique
      ⟨false, some (.jobj [("detail", .jstr "boom")]), some "Internal Server Error"⟩ =
      .error ⟨"safety-ethics", .jstr "boom"⟩ := by
  have h := c7_execution_error_messages.1 "safety-ethics"
    "Failed to execute safety and ethics agent" normalizeCritique
    ⟨false, some (.jobj [("detail", .jstr "boom")]), some "Internal Server Error"⟩ rfl
  rw [h, show errMsg "Failed to execute safety and ethics agent"
    ⟨false, some (.jobj [("detail", .jstr "boom")]), some "Internal Server Error"⟩ =
      .jstr "boom" from by decide]

/-! ### Claim theorems: request validation -/

/-- C3: an empty `companyName` is rejected by the schema gate with a
400 validation error naming the field, the workflow never runs (the
response is the same whatever the collaborators would answer), and the
streaming branch is never entered. -/
theorem c3_empty_company_name_rejected :
    ∀ (o : Oracle) (b : RawBody) (now : String), b.companyName = "" →
      bufferedPOST o b now = .validationError (validateBody b) ∧
      (⟨["brandContext", "companyName"], "companyName is required"⟩ : ValidationIssue) ∈
        validateBody b ∧
      httpStatus (bufferedPOST o b now) = 400 ∧
      (∀ (o₂ : Oracle) (now₂ : String), bufferedPOST o₂ b now₂ = bufferedPOST o b now) ∧
      streamingPOST o b now = .error (validateBody b) := by
  intro o b now hcn
  have hmem : (⟨["brandContext", "companyName"], "companyName is required"⟩ : ValidationIssue) ∈
      validateBody b := by
    simp [validateBody, hcn]
  have hne : validateBody b ≠ [] := List.ne_nil_of_mem hmem
  refine ⟨?_, hmem, ?_, ?_, ?_⟩
  · unfold bufferedPOST
    rw [if_neg hne]
  · unfold bufferedPOST
    rw [if_neg hne]
    rfl
  · intro o₂ now₂
    unfold bufferedPOST
    rw [if_neg hne, if_neg hne]
  · unfold streamingPOST
    rw [if_neg hne]

/-- Concrete instantiation of `c3_empty_company_name_rejected`. -/
theorem c3_empty_company_name_rejected_witness :
    bufferedPOST ⟨fun _ => ⟨true, none, none⟩, fun _ => ⟨true, none, none⟩,
        fun _ => ⟨true, none, none⟩, fun _ => ⟨true, none, none⟩, fun _ => ⟨true, none, none⟩,
        fun _ => ⟨true, none, none⟩, fun _ => ⟨true, none, none⟩, fun _ => ⟨true, none, none⟩,
        fun _ => ⟨true, none, none⟩, fun _ => ⟨true, none, none⟩⟩
      ⟨"v", "l", none, "", "Widget", none, none, false⟩ "T" =
      .validationError [⟨["brandContext", "companyName"], "companyName is required"⟩] := by
  have h := (c3_empty_company_name_rejected
    ⟨fun _ => ⟨true, none, none⟩, fun _ => ⟨true, none, none⟩, fun _ => ⟨true, none, none⟩,
     fun _ => ⟨true, none, none⟩, fun _ => ⟨true, none, none⟩, fun _ => ⟨true, none, none⟩,
     fun _ => ⟨true, none, none⟩, fun _ => ⟨true, none, none⟩, fun _ => ⟨true, none, none⟩,
     fun _ => ⟨true, none, none⟩⟩
    ⟨"v", "l", none, "", "Widget", none, none, false⟩ "T" rfl).1
  rw [h]
  decide

/-! ### Concrete fixtures for end-to-end witnesses -/

def okResp (body : JVal) : CollabResponse := ⟨true, some body, some "OK"⟩

def critiqueBody : JVal :=
  .jobj [("report", .jobj [("score", .jnum 1)]), ("prompt", .jstr "p"), ("warnings", .jarr [])]

def frameBodyGood : JVal :=
  .jobj [("frames", .jarr [.jobj [("frame_number", .jnum 0), ("timestamp", .jnum 0),
    ("image_base64", .jstr "img0")]]), ("total_frames_extracted", .jnum 1),
    ("video_duration", .jnum 1), ("video_fps", .jnum 30), ("extraction_rate", .jnum 2),
    ("warnings", .jarr [])]

def frameBodyEmpty : JVal :=
  .jobj [("frames", .jarr []), ("total_frames_extracted", .jnum 0), ("video_duration", .jnum 1),
    ("video_fps", .jnum 30), ("extraction_rate", .jnum 2), ("warnings", .jarr [])]

def logoBody : JVal :=
  .jobj [("logo_found", .jbool true), ("detections", .jarr []), ("primary_detection", .jnull),
    ("method_used", .jstr "clip"), ("warnings", .jarr []), ("notes", .jnull)]

def colorBody : JVal :=
  .jobj [("overall_score", .jnum 1), ("logo_colors", .jnull),
    ("frame_colors", defaultPalette), ("brand_logo_colors", defaultPalette),
    ("color_alignment_score", .jnum 1), ("analysis", .jstr "fine"),
    ("recommendations", .jarr []), ("warnings", .jarr [])]

def advisorBody : JVal :=
  .jobj [("report", .jobj [("verdict", .jstr "ok")]), ("prompt", .jstr "p"),
    ("validationPrompt", .jstr "change nothing"), ("warnings", .jarr [])]

def oracleAllOk : Oracle :=
  ⟨fun _ => okResp critiqueBody, fun _ => okResp critiqueBody, fun _ => okResp frameBodyGood,
   fun _ => okResp critiqueBody, fun _ => okResp critiqueBody, fun _ => okResp critiqueBody,
   fun _ => okResp logoBody, fun _ => okResp colorBody, fun _ => okResp critiqueBody,
   fun _ => okResp advisorBody⟩

def oracleEmptyFrames : Oracle :=
  { oracleAllOk with frameExtraction := fun _ => okResp frameBodyEmpty }

def oracleCriticFails : Oracle :=
  { oracleAllOk with overallCritic := fun _ =>
      ⟨false, some (.jobj [("detail", .jstr "critic down")]), some "Internal Server Error"⟩ }

def sampleBody : RawBody := ⟨"vid", "logo", none, "Acme", "Widget", none, none, false⟩

/-! ### Claim theorems: fail-fast guards of the detection step -/

theorem logo_guard_frames {o : Oracle} {m fv : JVal}
    (h : jpathRaw m "frame-extraction" "frames" = some fv)
    (hg : fv.truthy = false ∨ fv = .jarr []) :
    logoDetectionExecute o m =
      .error ⟨"logo-detection", .jstr "No frames available from frame extraction step"⟩ := by
  unfold logoDetectionExecute
  rw [h]
  have hc : fv.truthy = false ∨ emptyArr fv = true := by
    rcases hg with hg | hg
    · exact Or.inl hg
    · exact Or.inr (by rw [hg]; rfl)
  simp only [Option.getD_some]
  rw [if_pos hc]

/-- C4: with an empty (or missing) frame list the detection step fails
fast with the exact "no frames available" message without consulting
its collaborator; likewise for a missing logo and for blank
brand-context names; at the pipeline level the run ends `failed` and
neither the palette step nor anything after it ever starts. -/
theorem c4_empty_frames_fail_fast :
    (∀ (o : Oracle) (m fv : JVal), jpathRaw m "frame-extraction" "frames" = some fv →
        fv.truthy = false ∨ fv = .jarr [] →
        logoDetectionExecute o m =
          .error ⟨"logo-detection", .jstr "No frames available from frame extraction step"⟩ ∧
        ∀ o₂ : Oracle, logoDetectionExecute o₂ m = logoDetectionExecute o m) ∧
    (∀ (o : Oracle) (m fv : JVal), jpathRaw m "frame-extraction" "frames" = some fv →
        fv.truthy = true → emptyArr fv = false →
        ((m.get? "brandLogoBase64").getD .jnull).truthy = false →
        logoDetectionExecute o m = .error ⟨"logo-detection", .jstr "Brand logo is missing"⟩) ∧
    (∀ (o : Oracle) (m fv : JVal), jpathRaw m "frame-extraction" "frames" = some fv →
        fv.truthy = true → emptyArr fv = false →
        ((m.get? "brandLogoBase64").getD .jnull).truthy = true →
        (((jpathRaw m "brandContext" "companyName").getD .jnull).truthy = false ∨
          ((jpathRaw m "brandContext" "productName").getD .jnull).truthy = false) →
        logoDetectionExecute o m =
          .error ⟨"logo-detection", .jstr "Brand context is incomplete (missing companyName or productName)"⟩) ∧
    (∀ (o : Oracle) (inp : WorkflowInput) (oc vs fe aa se mc : JVal),
        overallCriticExecute o inp = .ok oc → visualStyleExecute o inp = .ok vs →
        frameExtractionExecute o inp = .ok fe → audioAnalysisExecute o inp = .ok aa →
        safetyEthicsExecute o inp = .ok se → messageClarityExecute o inp = .ok mc →
        fe.get? "frames" = some (.jarr []) →
        (brandAlignmentWorkflow o inp).status = "failed" ∧
        (brandAlignmentWorkflow o inp).steps.lookup "logo-detection" =
          some ⟨.failed, none, some (.jstr "No frames available from frame extraction step")⟩ ∧
        (brandAlignmentWorkflow o inp).steps.lookup "color-harmony" = none ∧
        (brandAlignmentWorkflow o inp).steps.lookup "synthesizer" = none ∧
        (brandAlignmentWorkflow o inp).steps.lookup "advisor" = none) := by
  refine ⟨?_, ?_, ?_, ?_⟩
  · intro o m fv h hg
    exact ⟨logo_guard_frames h hg,
      fun o₂ => (logo_guard_frames h hg).trans (logo_guard_frames h hg).symm⟩
  · intro o m fv h h1 h2 h3
    unfold logoDetectionExecute
    rw [h]
    simp only [Option.getD_some]
    rw [if_neg (by simp [h1, h2]), if_pos h3]
  · intro o m fv h h1 h2 h3 h4
    unfold logoDetectionExecute
    rw [h]
    simp only [Option.getD_some]
    rw [if_neg (by simp [h1, h2]), if_neg (by simp [h3])]
    rw [if_pos (by rcases h4 with h4 | h4
                   · exact Or.inl h4
                   · exact Or.inr h4)]
  · intro o inp oc vs fe aa se mc h1 h2 h3 h4 h5 h6 hfe
    have hframes : jpathRaw (merge1 inp oc vs fe aa se mc) "frame-extraction" "frames" =
        some (.jarr []) := hfe
    have hld := logo_guard_frames (o := o) hframes (Or.inr rfl)
    unfold brandAlignmentWorkflow
    simp only [h1, h2, h3, h4, h5, h6, hld]
    refine ⟨?_, ?_, ?_, ?_, ?_⟩ <;> simp [List.lookup, stepRecOf]

/-- Concrete instantiation of `c4_empty_frames_fail_fast`: all six
fan-out collaborators succeed but the sampler returns zero frames. -/
theorem c4_empty_frames_fail_fast_witness :
    (brandAlignmentWorkflow oracleEmptyFrames (toInput sampleBody)).status = "failed" ∧
    (brandAlignmentWorkflow oracleEmptyFrames (toInput sampleBody)).steps.lookup "logo-detection" =
      some ⟨.failed, none, some (.jstr "No frames available from frame extraction step")⟩ ∧
    (brandAlignmentWorkflow oracleEmptyFrames (toInput sampleBody)).steps.lookup "color-harmony" =
      none := by
  have h := c4_empty_frames_fail_fast.2.2.2 oracleEmptyFrames (toInput sampleBody)
    critiqueBody critiqueBody frameBodyEmpty critiqueBody critiqueBody critiqueBody
    (by decide) (by decide) (by decide) (by decide) (by decide) (by decide) (by decide)
  exact ⟨h.1, h.2.1, h.2.2.1⟩

/-- A run that reports `success` is exactly a run in which all ten
steps succeeded; its step record list and final result are fully
determined by the ten step outputs. -/
theorem workflow_success_shape {o : Oracle} {inp : WorkflowInput}
    (h : (brandAlignmentWorkflow o inp).status = "success") :
    ∃ oc vs fe aa se mc ld ch sy adv,
      overallCriticExecute o inp = .ok oc ∧ visualStyleExecute o inp = .ok vs ∧
      frameExtractionExecute o inp = .ok fe ∧ audioAnalysisExecute o inp = .ok aa ∧
      safetyEthicsExecute o inp = .ok se ∧ messageClarityExecute o inp = .ok mc ∧
      logoDetectionExecute o (merge1 inp oc vs fe aa se mc) = .ok ld ∧
      colorHarmonyExecute o (merge2 inp oc vs fe aa se mc ld) = .ok ch ∧
      synthesizerExecute o (merge3 inp oc vs fe aa se mc ld ch) = .ok sy ∧
      advisorExecute o (merge4 inp oc vs fe aa se mc ld ch sy) = .ok adv ∧
      brandAlignmentWorkflow o inp = ⟨"success",
        [("overall-critic", ⟨.success, some oc, none⟩), ("visual-style", ⟨.success, some vs, none⟩),
         ("frame-extraction", ⟨.success, some fe, none⟩), ("audio-analysis", ⟨.success, some aa, none⟩),
         ("safety-ethics", ⟨.success, some se, none⟩), ("message-clarity", ⟨.success, some mc, none⟩),
         ("map-1", ⟨.success, some (merge1 inp oc vs fe aa se mc), none⟩),
         ("logo-detection", ⟨.success, some ld, none⟩),
         ("map-2", ⟨.success, some (merge2 inp oc vs fe aa se mc ld), none⟩),
         ("color-harmony", ⟨.success, some ch, none⟩),
         ("map-3", ⟨.success, some (merge3 inp oc vs fe aa se mc ld ch), none⟩),
         ("synthesizer", ⟨.success, some sy, none⟩),
         ("map-4", ⟨.success, some (merge4 inp oc vs fe aa se mc ld ch sy), none⟩),
         ("advisor", ⟨.success, some adv, none⟩)], some adv⟩ := by
  simp only [brandAlignmentWorkflow] at h
  split at h
  · rename_i oc vs fe aa se mc hoc hvs hfe haa hse hmc
    split at h
    · simp at h
    · rename_i ld hld
      split at h
      · simp at h
      · rename_i ch hch
        split at h
        · simp at h
        · rename_i sy hsy
          split at h
          · simp at h
          · rename_i adv hadv
            refine ⟨oc, vs, fe, aa, se, mc, ld, ch, sy, adv,
              hoc, hvs, hfe, haa, hse, hmc, hld, hch, hsy, hadv, ?_⟩
            unfold brandAlignmentWorkflow
            simp [hoc, hvs, hfe, haa, hse, hmc, hld, hch, hsy, hadv, stepRecOf]
  · simp at h

/-! ### Projections of the buffered response -/

def respStatus : ApiResponse → Option String
  | .success st _ _ => some st
  | _ => none

def respResult : ApiResponse → Option JVal
  | .success _ r _ => some r
  | _ => none

def respStepIds : ApiResponse → Option (List String)
  | .success _ _ steps => some (steps.map WorkflowStepOut.id)
  | _ => none

theorem runCollab_ok_norm {id g : String} {n : JVal → Option JVal} {r : CollabResponse}
    {out : JVal} (h : runCollab id g n r = .ok out) : ∃ b, r.body = some b ∧ n b = some out := by
  unfold runCollab at h
  split at h
  · split at h
    · rename_i b hb
      split at h
      · rename_i o2 hn
        injection h with h
        exact ⟨b, hb, h ▸ hn⟩
      · exact Except.noConfusion h
    · exact Except.noConfusion h
  · exact Except.noConfusion h

theorem normalizeAdvisor_shape {p c : JVal} (h : normalizeAdvisor p = some c) :
    ∃ rep pr vp w, c = .jobj [("report", rep), ("prompt", pr), ("validationPrompt", vp),
      ("warnings", w)] := by
  unfold normalizeAdvisor at h
  by_cases hp : p = .jnull
  · rw [if_pos hp] at h; exact Option.noConfusion h
  · rw [if_neg hp] at h
    injection h with h
    exact ⟨_, _, _, _, h.symm⟩

theorem advisorExecute_ok_shape {o : Oracle} {m adv : JVal} (h : advisorExecute o m = .ok adv) :
    ∃ rep pr vp w, adv = .jobj [("report", rep), ("prompt", pr), ("validationPrompt", vp),
      ("warnings", w)] := by
  have h2 : runCollab "advisor" "Failed to execute advisor agent" normalizeAdvisor
      (o.advisor (advisorRequest m)) = .ok adv := h
  rcases runCollab_ok_norm h2 with ⟨b, _, hn⟩
  exact normalizeAdvisor_shape hn

theorem formatStep_id (vd : JVal) (id : String) (s : StepRec) : (formatStep vd id s).id = id := rfl

theorem stepsOut_success (vd oc vs fe aa se mc m1 ld m2 ch m3 sy m4 adv : JVal) :
    stepsOut ⟨"success",
      [("overall-critic", ⟨.success, some oc, none⟩), ("visual-style", ⟨.success, some vs, none⟩),
       ("frame-extraction", ⟨.success, some fe, none⟩), ("audio-analysis", ⟨.success, some aa, none⟩),
       ("safety-ethics", ⟨.success, some se, none⟩), ("message-clarity", ⟨.success, some mc, none⟩),
       ("map-1", ⟨.success, some m1, none⟩), ("logo-detection", ⟨.success, some ld, none⟩),
       ("map-2", ⟨.success, some m2, none⟩), ("color-harmony", ⟨.success, some ch, none⟩),
       ("map-3", ⟨.success, some m3, none⟩), ("synthesizer", ⟨.success, some sy, none⟩),
       ("map-4", ⟨.success, some m4, none⟩), ("advisor", ⟨.success, some adv, none⟩)], some adv⟩ vd =
    [formatStep vd "overall-critic" ⟨.success, some oc, none⟩,
     formatStep vd "visual-style" ⟨.success, some vs, none⟩,
     formatStep vd "frame-extraction" ⟨.success, some fe, none⟩,
     formatStep vd "audio-analysis" ⟨.success, some aa, none⟩,
     formatStep vd "safety-ethics" ⟨.success, some se, none⟩,
     formatStep vd "message-clarity" ⟨.success, some mc, none⟩,
     formatStep vd "logo-detection" ⟨.success, some ld, none⟩,
     formatStep vd "color-harmony" ⟨.success, some ch, none⟩,
     formatStep vd "synthesizer" ⟨.success, some sy, none⟩,
     formatStep vd "advisor" ⟨.success, some adv, none⟩] := by
  simp [stepsOut, strStartsWith, List.isPrefixOf]

/-- C1 counterexample: on a run in which every collaborator succeeds,
the buffered response carries 11 step records (the synthetic input
step, the six fan-out steps, detection, palette, and the two
aggregation steps) — not 8 as the claim counts. -/
theorem c1_counterexample :
    respStepIds (bufferedPOST oracleAllOk sampleBody "T") =
      some ["input", "overall-critic", "visual-style", "frame-extraction", "audio-analysis",
        "safety-ethics", "message-clarity", "logo-detection", "color-harmony", "synthesizer",
        "advisor"] ∧
    (respStepIds (bufferedPOST oracleAllOk sampleBody "T")).map List.length = some 11 ∧
    (11 : Nat) ≠ 8 :=
  ⟨by decide, by decide, by decide⟩

theorem bufferedPOST_success_parts (o : Oracle) (b : RawBody) (now : String)
    (hv : validateBody b = [])
    (hs : (brandAlignmentWorkflow o (toInput b)).status = "success") :
    respStatus (bufferedPOST o b now) = some "success" ∧
    respResult (bufferedPOST o b now) ≠ none ∧
    respResult (bufferedPOST o b now) ≠ some .jnull ∧
    respStepIds (bufferedPOST o b now) = some ["input", "overall-critic", "visual-style",
      "frame-extraction", "audio-analysis", "safety-ethics", "message-clarity",
      "logo-detection", "color-harmony", "synthesizer", "advisor"] ∧
    httpStatus (bufferedPOST o b now) = 200 := by
  rcases workflow_success_shape hs with ⟨oc, vs, fe, aa, se, mc, ld, ch, sy, adv,
    hoc, hvs, hfe, haa, hse, hmc, hld, hch, hsy, hadv, hexec⟩
  rcases advisorExecute_ok_shape hadv with ⟨rep, pr, vp, w, hadvshape⟩
  have hpost : bufferedPOST o b now = .success "success" adv
      (inputStepOut (bodyJson b) now ::
        [formatStep (bodyJson b) "overall-critic" ⟨.success, some oc, none⟩,
         formatStep (bodyJson b) "visual-style" ⟨.success, some vs, none⟩,
         formatStep (bodyJson b) "frame-extraction" ⟨.success, some fe, none⟩,
         formatStep (bodyJson b) "audio-analysis" ⟨.success, some aa, none⟩,
         formatStep (bodyJson b) "safety-ethics" ⟨.success, some se, none⟩,
         formatStep (bodyJson b) "message-clarity" ⟨.success, some mc, none⟩,
         formatStep (bodyJson b) "logo-detection" ⟨.success, some ld, none⟩,
         formatStep (bodyJson b) "color-harmony" ⟨.success, some ch, none⟩,
         formatStep (bodyJson b) "synthesizer" ⟨.success, some sy, none⟩,
         formatStep (bodyJson b) "advisor" ⟨.success, some adv, none⟩]) := by
    unfold bufferedPOST
    simp only [hv, hexec, stepsOut_success]
    simp
  rw [hpost]
  refine ⟨rfl, ?_, ?_, ?_, rfl⟩
  · intro hh
    exact Option.noConfusion hh
  · intro hh
    injection hh with hh
    rw [hadvshape] at hh
    exact JVal.noConfusion hh
  · simp [respStepIds, formatStep_id, inputStepOut]

/-- C1 (amended): on a valid request whose ten steps all succeed, the
buffered response has status `success`, a non-null result, HTTP 200,
and exactly 11 step records: the synthetic `input` step followed by the
ten pipeline steps in declaration order (merge steps excluded). -/
theorem c1_success_response (o : Oracle) (b : RawBody) (now : String)
    (hv : validateBody b = [])
    (hs : (brandAlignmentWorkflow o (toInput b)).status = "success") :
    respStatus (bufferedPOST o b now) = some "success" ∧
    respResult (bufferedPOST o b now) ≠ none ∧
    respResult (bufferedPOST o b now) ≠ some .jnull ∧
    respStepIds (bufferedPOST o b now) = some ["input", "overall-critic", "visual-style",
      "frame-extraction", "audio-analysis", "safety-ethics", "message-clarity",
      "logo-detection", "color-harmony", "synthesizer", "advisor"] ∧
    httpStatus (bufferedPOST o b now) = 200 :=
  bufferedPOST_success_parts o b now hv hs

/-- Concrete instantiation of `c1_success_response`. -/
theorem c1_success_response_witness :
    respStatus (bufferedPOST oracleAllOk sampleBody "W1") = some "success" ∧
    respResult (bufferedPOST oracleAllOk sampleBody "W1") ≠ none ∧
    respResult (bufferedPOST oracleAllOk sampleBody "W1") ≠ some .jnull ∧
    respStepIds (bufferedPOST oracleAllOk sampleBody "W1") = some ["input", "overall-critic",
      "visual-style", "frame-extraction", "audio-analysis", "safety-ethics", "message-clarity",
      "logo-detection", "color-harmony", "synthesizer", "advisor"] ∧
    httpStatus (bufferedPOST oracleAllOk sampleBody "W1") = 200 :=
  c1_success_response oracleAllOk sampleBody "W1" (by decide) (by decide)

/-- C2 counterexample: when a fan-out step fails, the buffered response
is the 500 error object, which carries no formatted `WorkflowStep`
list at all — contradicting the claim that every run, success or
failure, reports one record per declared step plus the `input` step. -/
theorem c2_counterexample :
    respStepIds (bufferedPOST oracleCriticFails sampleBody "T2") = none ∧
    httpStatus (bufferedPOST oracleCriticFails sampleBody "T2") = 500 ∧
    (brandAlignmentWorkflow oracleCriticFails (toInput sampleBody)).status = "failed" :=
  ⟨by decide, by decide, by decide⟩

/-- C2 (amended): on a successful run the buffered response carries one
`WorkflowStep` record per declared pipeline step (10) plus exactly one
synthetic `input` step, with internal merge (`map`) steps excluded; on
a failed run the handler instead returns the raw error object, with no
formatted step list. -/
theorem c2_step_records (o : Oracle) (b : RawBody) (now : String)
    (hv : validateBody b = []) :
    ((brandAlignmentWorkflow o (toInput b)).status = "success" →
      respStepIds (bufferedPOST o b now) = some ["input", "overall-critic", "visual-style",
        "frame-extraction", "audio-analysis", "safety-ethics", "message-clarity",
        "logo-detection", "color-harmony", "synthesizer", "advisor"]) ∧
    ((brandAlignmentWorkflow o (toInput b)).status ≠ "success" →
      bufferedPOST o b now = .workflowFailed (brandAlignmentWorkflow o (toInput b)).status
        (brandAlignmentWorkflow o (toInput b)) ∧
      respStepIds (bufferedPOST o b now) = none) := by
  constructor
  · intro hs
    exact (bufferedPOST_success_parts o b now hv hs).2.2.2.1
  · intro hs
    refine ⟨?_, ?_⟩ <;> simp [bufferedPOST, hv, hs, respStepIds]

/-- Concrete instantiation of `c2_step_records` (success side). -/
theorem c2_step_records_witness :
    respStepIds (bufferedPOST oracleAllOk sampleBody "W2") = some ["input", "overall-critic",
      "visual-style", "frame-extraction", "audio-analysis", "safety-ethics", "message-clarity",
      "logo-detection", "color-harmony", "synthesizer", "advisor"] :=
  (c2_step_records oracleAllOk sampleBody "W2" (by decide)).1 (by decide)

/-- C9: for one and the same execution, the step list carried by the
incremental mode's terminal `complete` event is exactly the buffered
response's step list — the same records with equal values (hence
trivially a permutation), and the `complete` frame is the last event. -/
theorem c9_streaming_complete_equals_buffered (o : Oracle) (b : RawBody) (now : String)
    (hv : validateBody b = [])
    (hs : (brandAlignmentWorkflow o (toInput b)).status = "success") :
    streamingPOST o b now = .ok
      ([Event.step (inputStepOut (bodyJson b) now)] ++
        (stepsOut (brandAlignmentWorkflow o (toInput b)) (bodyJson b)).map Event.step ++
        [Event.complete "success" (((brandAlignmentWorkflow o (toInput b)).result).getD .jnull)
          (inputStepOut (bodyJson b) now ::
            stepsOut (brandAlignmentWorkflow o (toInput b)) (bodyJson b))]) ∧
    bufferedPOST o b now = .success "success"
      (((brandAlignmentWorkflow o (toInput b)).result).getD .jnull)
      (inputStepOut (bodyJson b) now ::
        stepsOut (brandAlignmentWorkflow o (toInput b)) (bodyJson b)) ∧
    (∀ evs, streamingPOST o b now = .ok evs →
      evs.getLast? = some (.complete "success"
        (((brandAlignmentWorkflow o (toInput b)).result).getD .jnull)
        (inputStepOut (bodyJson b) now ::
          stepsOut (brandAlignmentWorkflow o (toInput b)) (bodyJson b)))) := by
  have h1 : streamingPOST o b now = .ok
      ([Event.step (inputStepOut (bodyJson b) now)] ++
        (stepsOut (brandAlignmentWorkflow o (toInput b)) (bodyJson b)).map Event.step ++
        [Event.complete "success" (((brandAlignmentWorkflow o (toInput b)).result).getD .jnull)
          (inputStepOut (bodyJson b) now ::
            stepsOut (brandAlignmentWorkflow o (toInput b)) (bodyJson b))]) := by
    unfold streamingPOST
    simp [hv, hs]
  have h2 : bufferedPOST o b now = .success "success"
      (((brandAlignmentWorkflow o (toInput b)).result).getD .jnull)
      (inputStepOut (bodyJson b) now ::
        stepsOut (brandAlignmentWorkflow o (toInput b)) (bodyJson b)) := by
    unfold bufferedPOST
    simp [hv, hs]
  refine ⟨h1, h2, ?_⟩
  intro evs hevs
  rw [h1] at hevs
  injection hevs with hevs
  subst hevs
  have hlast : ∀ (x : Event) (l : List Event) (a : Event),
      (x :: (l ++ [a])).getLast? = some a := by
    intro x l a
    induction l generalizing x with
    | nil => rfl
    | cons y ys ih => rw [List.cons_append, List.getLast?_cons_cons]; exact ih y
  exact hlast _ _ _

/-- Concrete instantiation of `c9_streaming_complete_equals_buffered`. -/
theorem c9_streaming_complete_equals_buffered_witness :
    streamingPOST oracleAllOk sampleBody "W9" = .ok
      ([Event.step (inputStepOut (bodyJson sampleBody) "W9")] ++
        (stepsOut (brandAlignmentWorkflow oracleAllOk (toInput sampleBody))
          (bodyJson sampleBody)).map Event.step ++
        [Event.complete "success"
          (((brandAlignmentWorkflow oracleAllOk (toInput sampleBody)).result).getD .jnull)
          (inputStepOut (bodyJson sampleBody) "W9" ::
            stepsOut (brandAlignmentWorkflow oracleAllOk (toInput sampleBody))
              (bodyJson sampleBody))]) ∧
    bufferedPOST oracleAllOk sampleBody "W9" = .success "success"
      (((brandAlignmentWorkflow oracleAllOk (toInput sampleBody)).result).getD .jnull)
      (inputStepOut (bodyJson sampleBody) "W9" ::
        stepsOut (brandAlignmentWorkflow oracleAllOk (toInput sampleBody)) (bodyJson sampleBody)) :=
  ⟨(c9_streaming_complete_equals_buffered oracleAllOk sampleBody "W9"
      (by decide) (by decide)).1,
   (c9_streaming_complete_equals_buffered oracleAllOk sampleBody "W9"
      (by decide) (by decide)).2.1⟩

/-! ### Claim theorems: advisor inputs -/

def advisorProbeA : JVal := .jobj [("overall-critic", .jobj [("report", .jobj [])])]

def advisorProbeB : JVal := .jobj [("overall-critic", .jobj [("report", .jobj [("x", .jnum 1)])])]

def advisorProbeC : JVal :=
  .jobj [("synthesizer", .jobj [("report", .jobj [("s", .jnum 2)])]), ("junk", .jnum 9)]

def advisorProbeD : JVal :=
  .jobj [("synthesizer", .jobj [("report", .jobj [("s", .jnum 2)])]), ("other", .jstr "x")]

/-- C8 counterexample: two advisor-phase inputs that agree on the
fan-in aggregation report, both content-review reports, the brand
context, and the original prompt still yield different advisor request
bodies, because the request also forwards the overall-critic report
(as `brandAlignmentReport`) — so those five inputs are not all the
step consumes. -/
theorem c8_counterexample :
    jpathRaw advisorProbeA "synthesizer" "report" = jpathRaw advisorProbeB "synthesizer" "report" ∧
    jpathRaw advisorProbeA "safety-ethics" "report" =
      jpathRaw advisorProbeB "safety-ethics" "report" ∧
    jpathRaw advisorProbeA "message-clarity" "report" =
      jpathRaw advisorProbeB "message-clarity" "report" ∧
    advisorProbeA.get? "brandContext" = advisorProbeB.get? "brandContext" ∧
    advisorProbeA.get? "originalPrompt" = advisorProbeB.get? "originalPrompt" ∧
    advisorRequest advisorProbeA ≠ advisorRequest advisorProbeB := by decide

/-- C8 (amended): the advisor request is fully determined by six
projections of its input — the overall-critic report, the synthesizer
report, the two content-review reports, the brand context, and the
optional original prompt — and the step produces the run's terminal
report together with the derived `validationPrompt` guidance text. -/
theorem c8_advisor_consumes (m₁ m₂ : JVal)
    (hoc : jpathRaw m₁ "overall-critic" "report" = jpathRaw m₂ "overall-critic" "report")
    (hsy : jpathRaw m₁ "synthesizer" "report" = jpathRaw m₂ "synthesizer" "report")
    (hse : jpathRaw m₁ "safety-ethics" "report" = jpathRaw m₂ "safety-ethics" "report")
    (hmc : jpathRaw m₁ "message-clarity" "report" = jpathRaw m₂ "message-clarity" "report")
    (hbc : m₁.get? "brandContext" = m₂.get? "brandContext")
    (hop : m₁.get? "originalPrompt" = m₂.get? "originalPrompt") :
    advisorRequest m₁ = advisorRequest m₂ ∧
    (∀ (o : Oracle) (m adv : JVal), advisorExecute o m = .ok adv →
      ∃ rep pr vp w, adv = .jobj [("report", rep), ("prompt", pr), ("validationPrompt", vp),
        ("warnings", w)]) ∧
    (∀ (o : Oracle) (inp : WorkflowInput), (brandAlignmentWorkflow o inp).status = "success" →
      ∃ adv, (brandAlignmentWorkflow o inp).result = some adv ∧
        (brandAlignmentWorkflow o inp).steps.lookup "advisor" =
          some ⟨.success, some adv, none⟩) := by
  refine ⟨?_, ?_, ?_⟩
  · unfold advisorRequest
    rw [hoc, hsy, hse, hmc, hbc, hop]
  · intro o m adv h
    exact advisorExecute_ok_shape h
  · intro o inp hs
    rcases workflow_success_shape hs with ⟨oc, vs, fe, aa, se, mc, ld, ch, sy, adv,
      _, _, _, _, _, _, _, _, _, _, hexec⟩
    refine ⟨adv, ?_, ?_⟩
    · rw [hexec]
    · rw [hexec]
      simp [List.lookup]

/-- Concrete instantiation of `c8_advisor_consumes`: inputs that agree
on the six consumed projections produce identical advisor requests. -/
theorem c8_advisor_consumes_witness :
    advisorRequest advisorProbeC = advisorRequest advisorProbeD :=
  (c8_advisor_consumes advisorProbeC advisorProbeD (by decide) (by decide) (by decide)
    (by decide) (by decide) (by decide)).1
